import Mathlib

/-!
Verification of the netbox-csv-import core against its specification.

The Python sources are shallowly embedded:
* dictionaries become association lists `List (String × _)` with
  insertion-order preserving update (`dictSet`), mirroring CPython dicts;
* Python scalar values become the inductive `PyValue` (str / int / bool /
  None / nested dict);
* fallible code returns `Except PyErr _`, where `PyErr` distinguishes the
  exception classes relevant to control flow: pydantic (v1) converts
  `ValueError`, `TypeError` and `AssertionError` raised inside validators
  into a `ValidationError`, while other exceptions (`KeyError`,
  `UnboundLocalError`) escape the model validation machinery unwrapped;
* the remote NetBox API is an oracle (`ApiEnv`); the reconciliation method
  `netbox_import` returns the ordered list of API calls it issued together
  with the record outcome.

The reference tables of `wireless_vars.py` are reproduced verbatim.  The
center-frequency table stores Python floats that are all of the form
`x.0`; they are embedded exactly as tenths of MHz (`51900` for `5190.0`),
and the code's `int(...)` truncation becomes division by ten.
-/

namespace NetboxCsvImport

/-! ## Association-list dictionary primitives -/

/-- First-match association lookup, modelling `dict.get` /
`dict[...]` presence on a Python dict (keys of a Python dict are unique,
so first-match and the dict lookup agree). -/
def lookupAssoc {α : Type} (k : String) : List (String × α) → Option α
  | [] => none
  | (k', v) :: rest => if k' = k then some v else lookupAssoc k rest

/-- `d[k] = v` on a Python dict: replace the value in place when the key
exists (keeping its position), append the pair otherwise. -/
def dictSet {α : Type} (d : List (String × α)) (k : String) (v : α) :
    List (String × α) :=
  if d.any (fun kv => kv.1 = k) then
    d.map (fun kv => if kv.1 = k then (k, v) else kv)
  else
    d ++ [(k, v)]

/-- `d.pop(k)` on a Python dict (keys unique, so removing every pair with
the key coincides with removing the single entry). -/
def dictErase {α : Type} (d : List (String × α)) (k : String) :
    List (String × α) :=
  d.filter (fun kv => kv.1 ≠ k)

@[simp] theorem lookupAssoc_nil {α : Type} (k : String) :
    lookupAssoc (α := α) k [] = none := rfl

@[simp] theorem lookupAssoc_cons {α : Type} (k k' : String) (v : α) (rest) :
    lookupAssoc k ((k', v) :: rest) =
      if k' = k then some v else lookupAssoc k rest := rfl

theorem lookupAssoc_append {α : Type} (k : String) (l₁ l₂ : List (String × α)) :
    lookupAssoc k (l₁ ++ l₂) =
      match lookupAssoc k l₁ with
      | some v => some v
      | none => lookupAssoc k l₂ := by
  induction l₁ with
  | nil => simp
  | cons kv rest ih =>
    obtain ⟨k', v⟩ := kv
    by_cases h : k' = k <;> simp [h, ih]

theorem lookupAssoc_map_replace_self {α : Type} (d : List (String × α)) (k : String) (v : α) :
    lookupAssoc k (d.map (fun kv => if kv.1 = k then (k, v) else kv)) =
      if (lookupAssoc k d).isSome then some v else none := by
  induction d with
  | nil => simp
  | cons hd tl ih =>
    obtain ⟨k', v'⟩ := hd
    by_cases hk : k' = k
    · simp [hk]
    · simp only [List.map_cons, if_neg hk, lookupAssoc_cons, if_neg hk]
      exact ih

theorem lookupAssoc_map_replace_ne {α : Type} (d : List (String × α)) (k k' : String)
    (v : α) (h : k' ≠ k) :
    lookupAssoc k' (d.map (fun kv => if kv.1 = k then (k, v) else kv)) =
      lookupAssoc k' d := by
  induction d with
  | nil => rfl
  | cons hd tl ih =>
    obtain ⟨k'', v''⟩ := hd
    by_cases hk : k'' = k
    · subst hk
      have h1 : k'' ≠ k' := fun he => h he.symm
      simp [lookupAssoc_cons, h1, ih]
    · by_cases hk2 : k'' = k'
      · simp [hk, hk2, h]
      · simp [hk, hk2, ih]

theorem any_key_eq_isSome_lookupAssoc {α : Type} (d : List (String × α)) (k : String) :
    d.any (fun kv => kv.1 = k) = (lookupAssoc k d).isSome := by
  induction d with
  | nil => simp
  | cons hd tl ih =>
    obtain ⟨k', v'⟩ := hd
    by_cases hk : k' = k <;> simp [hk, ih]

theorem lookupAssoc_dictSet_self {α : Type} (d : List (String × α)) (k : String) (v : α) :
    lookupAssoc k (dictSet d k v) = some v := by
  unfold dictSet
  rw [any_key_eq_isSome_lookupAssoc]
  cases hl : lookupAssoc k d with
  | some v' =>
    rw [if_pos (by rfl)]
    rw [lookupAssoc_map_replace_self, hl]
    rfl
  | none =>
    rw [if_neg (by simp)]
    rw [lookupAssoc_append, hl]
    simp

theorem lookupAssoc_dictSet_ne {α : Type} (d : List (String × α)) (k k' : String)
    (v : α) (h : k' ≠ k) :
    lookupAssoc k' (dictSet d k v) = lookupAssoc k' d := by
  unfold dictSet
  split
  · exact lookupAssoc_map_replace_ne d k k' v h
  · rw [lookupAssoc_append]
    cases hl : lookupAssoc k' d with
    | some v' => simp
    | none => simp [if_neg h.symm]

/-! ## Python scalar values -/

/-- The Python exception classes that steer control flow in the embedded
code.  pydantic v1 turns `valueError`, `typeError` and `assertionError`
raised inside a validator into a `ValidationError`; `keyError` and
`unboundLocal` (Python's `UnboundLocalError`) escape unwrapped. -/
inductive PyErr where
  | valueError
  | typeError
  | assertionError
  | keyError
  | unboundLocal
  deriving DecidableEq, Repr

/-- A Python value as it occurs in the import dictionaries: strings from the
CSV reader, ints produced by `int(...)` casts and API lookups, booleans,
`None`, and nested dicts (`custom_fields`). -/
inductive PyValue where
  | str (s : String)
  | int (n : Int)
  | bool (b : Bool)
  | none
  | dict (entries : List (String × PyValue))

/-- `value == "some string"`: Python equality of a value with a string
literal; only a str can equal a str. -/
def pyEqStr (v : PyValue) (s : String) : Bool :=
  match v with
  | .str s2 => s2 = s
  | _ => false

/-- Python truthiness (`if value:`): empty string, `0`, `False`, `None` and
the empty dict are falsy. -/
def PyValue.truthy : PyValue → Bool
  | .str s => s ≠ ""
  | .int n => n ≠ 0
  | .bool b => b
  | .none => false
  | .dict entries => !entries.isEmpty

/-! ### Character-list string helpers

Python string operations are embedded over `String.data` (the character
list), which the kernel evaluates on literals; CSV numerals are plain
optionally-signed decimal strings. -/

/-- Digit run parser for `int(str)`. -/
def parseDigitsAux : List Char → Nat → Option Nat
  | [], acc => some acc
  | c :: rest, acc =>
    if c.isDigit then parseDigitsAux rest (acc * 10 + (c.toNat - 48))
    else Option.none

/-- `int(s)` on a plain decimal numeral, optionally `-`-signed; anything
else raises `ValueError` (`None` here). -/
def pyIntOfString (s : String) : Option Int :=
  match s.data with
  | [] => Option.none
  | '-' :: rest =>
    match rest with
    | [] => Option.none
    | _ => (parseDigitsAux rest 0).map (fun n => -(n : Int))
  | l => (parseDigitsAux l 0).map (fun n => (n : Int))

/-- `s.lower()`. -/
def strLower (s : String) : String :=
  String.mk (s.data.map Char.toLower)

/-- Strip a literal character prefix, returning the remainder. -/
def stripPrefixChars : List Char → List Char → Option (List Char)
  | rest, [] => some rest
  | [], _ :: _ => Option.none
  | c :: rest, p :: ps => if c = p then stripPrefixChars rest ps else Option.none

/-- Python's substring test `sub in s` over character lists. -/
def listContainsSub (l sub : List Char) : Bool :=
  (stripPrefixChars l sub).isSome ||
    (match l with
     | [] => false
     | _ :: rest => listContainsSub rest sub)

/-- `int(value)` on a scalar: ints pass through, decimal strings are
parsed (a non-numeric string raises `ValueError`), booleans cast to 0/1,
anything else raises `TypeError`.  CSV fields are plain decimal numerals,
which `String.toInt?` parses exactly as Python does. -/
def pyInt : PyValue → Except PyErr Int
  | .int n => .ok n
  | .str s => match pyIntOfString s with
    | some n => .ok n
    | Option.none => .error .valueError
  | .bool b => .ok (if b then 1 else 0)
  | _ => .error .typeError

/-- `dict.get(k)` with its Python default: missing key yields `None`. -/
def pyGet (d : List (String × PyValue)) (k : String) : PyValue :=
  (lookupAssoc k d).getD .none

/-- `d[k]` subscription: missing key raises `KeyError`. -/
def pySubscript (d : List (String × PyValue)) (k : String) : Except PyErr PyValue :=
  match lookupAssoc k d with
  | some v => .ok v
  | Option.none => .error .keyError

/-- How an f-string renders a scalar (`f"{value}"`).  Nested dicts never
reach an f-string in the modelled code paths. -/
def pyFmt : PyValue → String
  | .str s => s
  | .int n => toString n
  | .bool b => if b then "True" else "False"
  | .none => "None"
  | .dict _ => "<dict>"

/-! ## `wireless_vars.py`: static channel reference data -/

def valid_channel_numbers_24ghz : List Int :=
  [1, 2, 3, 4, 5, 6, 7, 8, 9, 10, 11, 12, 13]

def denied_channel_numbers_24ghz : List Int :=
  [2, 3, 4, 5, 7, 8, 9, 10, 12, 13]

def allowed_channel_numbers_24ghz : List Int :=
  valid_channel_numbers_24ghz.filter
    (fun x => !denied_channel_numbers_24ghz.contains x)

def channel_range_5ghz_20mhz : List Int :=
  [36, 38, 40, 42, 44, 46, 48, 50, 52, 54, 56,
   58, 60, 62, 64, 100, 102, 104, 106, 108, 110, 112,
   114, 116, 118, 120, 122, 124, 126, 128, 132, 134, 136,
   138, 140, 142, 151, 153, 155, 157, 159, 161, 163, 165]

def channel_range_5ghz_40mhz : List Int :=
  [38, 46, 54, 62, 102, 110, 118, 126, 134, 142, 151, 159]

def channel_range_5ghz_80mhz : List Int := [42, 58, 106, 122, 138, 155]

def channel_range_5ghz_160mhz : List Int := [50, 114]

/-- `sorted(range20 + range40 + range80 + range160)`: a stable sort of the
concatenation (sorted lists of a multiset of integers are unique, so any
correct sort reproduces Python's output). -/
def valid_channel_numbers_5ghz : List Int :=
  List.insertionSort (· ≤ ·)
    (channel_range_5ghz_20mhz ++ channel_range_5ghz_40mhz ++
     channel_range_5ghz_80mhz ++ channel_range_5ghz_160mhz)

def denied_channel_numbers_5ghz : List Int := [44, 167, 169, 171, 173, 175, 177]

def allowed_channel_numbers_5ghz : List Int :=
  valid_channel_numbers_5ghz.filter
    (fun x => !denied_channel_numbers_5ghz.contains x)

def allowed_channel_width_5ghz : List Int := [20, 40, 80, 160]

def default_channel_width_5ghz : Int := 20

def default_channel_width_24ghz : Int := 22

/-- `netbox_channel_width_translation`: per bonded width, the map from the
tuple of member channels to the NetBox primary channel. -/
def netbox_channel_width_translation : List (Int × List (List Int × Int)) :=
  [(40, [([36, 38, 40], 38),
         ([44, 46, 48], 46),
         ([52, 54, 56], 54),
         ([60, 62, 64], 62),
         ([100, 102, 104], 102),
         ([108, 110, 112], 110),
         ([116, 118, 120], 118),
         ([124, 126, 128], 126),
         ([132, 134, 136], 134),
         ([140, 142, 144], 142),
         ([149, 151, 153], 151),
         ([157, 159, 161], 159)]),
   (80, [([36, 38, 40, 42, 44, 46, 48], 42),
         ([52, 54, 56, 58, 60, 62, 64], 58),
         ([100, 102, 104, 106, 108, 110, 112], 106),
         ([116, 118, 120, 122, 124, 126, 128], 122),
         ([132, 134, 136, 138, 140, 142, 144], 138),
         ([149, 151, 153, 155, 157, 159, 161], 155)]),
   (160, [([36, 38, 40, 42, 44, 46, 48, 50, 52, 54, 56, 58, 60, 62, 64], 50),
          ([100, 102, 104, 106, 108, 110, 112, 114, 116, 118, 120, 122, 124,
            126, 128], 114)])]

/-- Integer-keyed lookup in an embedded Python dict with int keys. -/
def lookupInt {α : Type} (k : Int) : List (Int × α) → Option α
  | [] => Option.none
  | (k', v) :: rest => if k' = k then some v else lookupInt k rest

/-- `netbox_channel_to_cisco_wlc_translation`: NetBox primary channel to the
channel number a Cisco WLC expects (first 20 MHz sub-channel). -/
def netbox_channel_to_cisco_wlc_translation : List (Int × Int) :=
  [(38, 36), (42, 36), (46, 44), (50, 36), (54, 52), (58, 52), (62, 60),
   (102, 100), (106, 100), (110, 108), (114, 100), (118, 116), (122, 116),
   (126, 124), (134, 132), (138, 132), (142, 140), (151, 149), (155, 149),
   (159, 157)]

/-- `channel_center_frequencies`: primary channel → center frequency.  The
Python dict stores floats, all exactly `x.0`; they are embedded as tenths
of MHz (`5190.0` ↦ `51900`) so that the code's `int(...)` truncation is
division by ten, with no rounding concern. -/
def channel_center_frequencies_tenths : List (Int × Int) :=
  [(1, 24120), (2, 24170), (3, 24220), (4, 24270), (5, 24320), (6, 24370),
   (7, 24420), (8, 24470), (9, 24520), (10, 24570), (11, 24620), (12, 24670),
   (13, 24720),
   (36, 51800), (38, 51900), (40, 52000), (42, 52100), (44, 52200),
   (46, 52300), (48, 52400), (50, 52500), (52, 52600), (54, 52700),
   (56, 52800), (58, 52900), (60, 53000), (62, 53100), (64, 53200),
   (100, 55000), (102, 55100), (104, 55200), (106, 55300), (108, 55400),
   (110, 55500), (112, 55600), (114, 55700), (116, 55800), (118, 55900),
   (120, 56000), (122, 56100), (124, 56200), (126, 56300), (128, 56400),
   (132, 56600), (134, 56700), (136, 56800), (138, 56900), (140, 57000),
   (142, 57100), (144, 57200), (149, 57450), (151, 57550), (153, 57650),
   (155, 57750), (157, 57850), (159, 57950), (161, 58050), (165, 58250)]

end NetboxCsvImport

namespace NetboxCsvImport

/-! ## `wireless_models.py`: the pre-root-validators of
`NetboxWirelessApInterfaceModel` (pydantic v1 runs them in definition
order, inherited validators first). -/

/-- A Python dict of scalar-or-nested values, the `values` mapping a
pydantic root validator receives. -/
abbrev PyDict := List (String × PyValue)

/-- `NetboxBaseInterfaceModel.mac_to_mac_address` (inherited, runs first):
copy a truthy `mac` entry into `mac_address`. -/
def mac_to_mac_address (values : PyDict) : Except PyErr PyDict :=
  if (pyGet values "mac").truthy then
    .ok (dictSet values "mac_address" (pyGet values "mac"))
  else
    .ok values

/-- `NetboxWirelessApInterfaceModel.validate_channel`: when a band is
given, require a truthy channel number, cast it with `int(...)` and check
membership in the allowed channel list of the band; the cast value is
written back. -/
def validate_channel (values : PyDict) : Except PyErr PyDict := do
  let rf_band := pyGet values "band"
  if rf_band.truthy then
    let cn := pyGet values "channel_number"
    if !cn.truthy then
      -- `raise ValueError("Channel number must be specified ...")`
      throw .valueError
    let channel_number ← pyInt cn
    if pyEqStr rf_band "2.4" then
      if !(allowed_channel_numbers_24ghz.contains channel_number) then
        throw .assertionError
    else if pyEqStr rf_band "5" then
      if !(allowed_channel_numbers_5ghz.contains channel_number) then
        throw .assertionError
    return dictSet values "channel_number" (.int channel_number)
  else
    return values

/-- `NetboxWirelessApInterfaceModel.validate_channel_width`: 2.4 GHz bands
get the fixed 22 MHz width unconditionally; 5 GHz bands validate a truthy
requested width against the allowed set and fall back to the 20 MHz
default. -/
def validate_channel_width (values : PyDict) : Except PyErr PyDict := do
  let rf_band := pyGet values "band"
  if rf_band.truthy then
    if pyEqStr rf_band "2.4" then
      return dictSet values "rf_channel_width" (.int default_channel_width_24ghz)
    else if pyEqStr rf_band "5" then
      let cw := pyGet values "channel_width"
      if cw.truthy then
        let channel_width ← pyInt cw
        if !(allowed_channel_width_5ghz.contains channel_width) then
          throw .assertionError
        return dictSet values "rf_channel_width" (.int channel_width)
      else
        return dictSet values "rf_channel_width" (.int default_channel_width_5ghz)
    else
      return values
  else
    return values

/-- Membership of a Python value in a tuple of ints
(`values["channel_number"] in channel_tuple`): only an int can equal an
int member. -/
def pyMemIntList (v : PyValue) (l : List Int) : Bool :=
  match v with
  | .int n => l.contains n
  | _ => false

/-- `NetboxWirelessApInterfaceModel.set_rf_channel`: translate band,
channel number and resolved width into the NetBox channel number and the
concatenated `rf_channel` string
`f"{band}g-{nb}-{int(center_frequency)}-{width}"`.

Faithful failure modes: a missing `rf_channel_width` or `channel_number`
key raises `KeyError`; when the width has a bonding table but no tuple
contains the channel, the loop leaves `netbox_channel_number` unassigned
and building the f-string raises `UnboundLocalError`; a channel without a
center-frequency entry raises `KeyError` while the f-string evaluates. -/
def set_rf_channel (values : PyDict) : Except PyErr PyDict := do
  let rf_band := pyGet values "band"
  if rf_band.truthy then
    let width ← pySubscript values "rf_channel_width"
    let netbox_channel_number ←
      match width with
      | .int w =>
        match lookupInt w netbox_channel_width_translation with
        | some groups => do
          let cn ← pySubscript values "channel_number"
          match groups.find? (fun g => pyMemIntList cn g.1) with
          | some g => pure (PyValue.int g.2)
          | Option.none =>
            -- no tuple contained the channel: `netbox_channel_number`
            -- is referenced before assignment below
            throw PyErr.unboundLocal
        | Option.none => pySubscript values "channel_number"
      | _ => pySubscript values "channel_number"
    let freq_tenths ←
      match netbox_channel_number with
      | .int nb =>
        match lookupInt nb channel_center_frequencies_tenths with
        | some t => pure t
        | Option.none => throw PyErr.keyError
      | _ =>
        -- a non-int key is absent from the int-keyed frequency dict
        throw PyErr.keyError
    let values := dictSet values "rf_channel"
      (.str s!"{pyFmt rf_band}g-{pyFmt netbox_channel_number}-{freq_tenths / 10}-{pyFmt width}")
    return dictSet values "netbox_channel_number" netbox_channel_number
  else
    return values

/-- `str(value)` for the scalar values the code feeds it. -/
def pyStr : PyValue → String
  | .str s => s
  | .int n => toString n
  | .bool b => if b then "True" else "False"
  | .none => "None"
  | .dict _ => "<dict>"

/-- `NetboxWirelessApInterfaceModel.set_custom_field_rf_channel`: derive
the WLC channel (2.4 GHz: the original channel number; 5 GHz: reverse
lookup of the NetBox channel, falling back to itself) and store its string
form under `custom_fields["wlc_rf_channel"]`.

Faithful failure modes: any other band (including a missing one) leaves
`wlc_channel` unassigned — `UnboundLocalError`; a missing `custom_fields`
key raises `KeyError`; a non-dict `custom_fields` value rejects item
assignment with `TypeError`. -/
def set_custom_field_rf_channel (values : PyDict) : Except PyErr PyDict := do
  let wlc_channel ←
    if pyEqStr (pyGet values "band") "2.4" then
      pySubscript values "channel_number"
    else if pyEqStr (pyGet values "band") "5" then do
      let nb ← pySubscript values "netbox_channel_number"
      match nb with
      | .int n =>
        match lookupInt n netbox_channel_to_cisco_wlc_translation with
        | some wlc => pure (PyValue.int wlc)
        | Option.none => pure nb
      | _ => pure nb
    else
      throw PyErr.unboundLocal
  let cf ← pySubscript values "custom_fields"
  match cf with
  | .dict m =>
    return dictSet values "custom_fields"
      (.dict (dictSet m "wlc_rf_channel" (.str (pyStr wlc_channel))))
  | _ => throw PyErr.typeError

/-- The complete pre-root-validator chain of
`NetboxWirelessApInterfaceModel`, in pydantic's execution order. -/
def wireless_ap_interface_root_validators (values : PyDict) : Except PyErr PyDict :=
  mac_to_mac_address values >>= validate_channel >>= validate_channel_width
    >>= set_rf_channel >>= set_custom_field_rf_channel

end NetboxCsvImport

namespace NetboxCsvImport

/-! ## pydantic field validation (phase 2) for the device and interface
models of `base_models.py` / `wireless_models.py`.

pydantic v1 coercions for the field types used by the models: `str`
accepts strings and stringifies numbers, `int` accepts ints and decimal
strings, `bool` accepts booleans, 0/1 and the usual true/false words.
`netaddr.valid_mac` is an external collaborator and is passed in as an
oracle `valid_mac : String → Bool`. -/

/-- pydantic `str` coercion. -/
def coerceStr : PyValue → Option PyValue
  | .str s => some (.str s)
  | .int n => some (.str (toString n))
  | .bool b => some (.str (if b then "True" else "False"))
  | _ => Option.none

/-- pydantic `int` coercion. -/
def coerceInt : PyValue → Option PyValue
  | .int n => some (.int n)
  | .str s => (pyIntOfString s).map PyValue.int
  | .bool b => some (.int (if b then 1 else 0))
  | _ => Option.none

/-- pydantic `bool` coercion. -/
def coerceBool : PyValue → Option PyValue
  | .bool b => some (.bool b)
  | .str s =>
    if ["true", "yes", "on", "1"].contains (strLower s) then some (.bool true)
    else if ["false", "no", "off", "0"].contains (strLower s) then some (.bool false)
    else Option.none
  | .int n =>
    if n = 1 then some (.bool true)
    else if n = 0 then some (.bool false)
    else Option.none
  | _ => Option.none

/-- A required field: must be present and coercible. -/
def reqField (d : PyDict) (k : String) (coerce : PyValue → Option PyValue) :
    Option PyValue :=
  (lookupAssoc k d).bind coerce

/-- An `Optional[T]` field with implicit default `None`: absent or `None`
stays `None`, anything else must coerce. -/
def optFieldNone (d : PyDict) (k : String) (coerce : PyValue → Option PyValue) :
    Option PyValue :=
  match lookupAssoc k d with
  | Option.none => some PyValue.none
  | some .none => some PyValue.none
  | some v => coerce v

/-- An `Optional[T] = default` field: absent takes the default, `None`
stays `None`, anything else must coerce. -/
def optFieldDefault (d : PyDict) (k : String) (coerce : PyValue → Option PyValue)
    (default : PyValue) : Option PyValue :=
  match lookupAssoc k d with
  | Option.none => some default
  | some .none => some PyValue.none
  | some v => coerce v

/-- `check_device_status` from `base_models.py`: case-insensitive check
against the permitted statuses, normalising to lowercase. -/
def check_device_status (status : String) : Option String :=
  if ["active", "decommissioning", "failed",
      "inventory", "offline", "planned", "staged"].contains (strLower status) then
    some (strLower status)
  else
    Option.none

/-- Outcome of running a pydantic model on a dict. -/
inductive RunOutcome where
  | ok (validated : PyDict)
  | vErr
  | pyErr (e : PyErr)

/-- The exception classes pydantic v1 converts into a `ValidationError`
when raised inside a validator. -/
def pydanticWraps : PyErr → Bool
  | .valueError => true
  | .typeError => true
  | .assertionError => true
  | _ => false

/-- Feed a root-validator chain result into field validation, applying
pydantic's error wrapping. -/
def classifyRun (r : Except PyErr PyDict) (fieldPhase : PyDict → RunOutcome) :
    RunOutcome :=
  match r with
  | .ok d => fieldPhase d
  | .error e => if pydanticWraps e then .vErr else .pyErr e

/-- Combine per-field validation results: the model validates when every
field does, and the validated output dict lists the model fields in
definition order (pydantic `.dict()`). -/
def collectFields (entries : List (String × Option PyValue)) : Option PyDict :=
  if entries.all (fun kv => kv.2.isSome) then
    some (entries.map (fun kv => (kv.1, kv.2.getD PyValue.none)))
  else
    Option.none

/-- `mac_address : str` with the reused `check_mac_address` validator
(`netaddr.valid_mac` supplied as an oracle). -/
def macAddressField (valid_mac : String → Bool) (d : PyDict) : Option PyValue :=
  (reqField d "mac_address" coerceStr).bind (fun v =>
    match v with
    | .str s => if valid_mac s then some v else Option.none
    | _ => Option.none)

/-- `constr(min_length=1)`: the coerced value must be a non-empty str. -/
def nonEmptyStrField (v : Option PyValue) : Option PyValue :=
  v.bind (fun v' =>
    match v' with
    | .str s => if s ≠ "" then some v' else Option.none
    | _ => Option.none)

/-- Field phase of `NetboxBaseInterfaceModel`: `id` optional int, `name`
required str, `mac_address` required str passing `check_mac_address`,
`enabled` optional bool defaulting to `True`. -/
def base_interface_field_phase (valid_mac : String → Bool) (d : PyDict) :
    Option PyDict :=
  collectFields
    [("id", optFieldNone d "id" coerceInt),
     ("name", reqField d "name" coerceStr),
     ("mac_address", macAddressField valid_mac d),
     ("enabled", optFieldDefault d "enabled" coerceBool (.bool true))]

/-- `NetboxBaseInterfaceModel` end to end: the `mac_to_mac_address`
pre-validator, then the field phase. -/
def run_base_interface_model (valid_mac : String → Bool) (d : PyDict) : RunOutcome :=
  classifyRun (mac_to_mac_address d) (fun d2 =>
    match base_interface_field_phase valid_mac d2 with
    | some out => .ok out
    | Option.none => .vErr)

/-- `custom_fields` of the wireless interface model
(`NetboxWirelessApInterfaceCustomFields`): a required nested model with an
optional `wlc_rf_channel` str. -/
def interface_custom_fields_field (d : PyDict) : Option PyValue :=
  match lookupAssoc "custom_fields" d with
  | some (.dict m) =>
    (optFieldNone m "wlc_rf_channel" coerceStr).map (fun wlc =>
      PyValue.dict [("wlc_rf_channel", wlc)])
  | _ => Option.none

/-- Field phase of `NetboxWirelessApInterfaceModel`: the base fields plus
the wireless fields (`rf_role`, `tx_power`, `rf_channel_frequency : Any =
None`, required `rf_channel_width : int`, `rf_channel`, and the nested
custom-fields model). -/
def wireless_ap_interface_field_phase (valid_mac : String → Bool) (d : PyDict) :
    Option PyDict :=
  collectFields
    [("id", optFieldNone d "id" coerceInt),
     ("name", reqField d "name" coerceStr),
     ("mac_address", macAddressField valid_mac d),
     ("enabled", optFieldDefault d "enabled" coerceBool (.bool true)),
     ("rf_role", optFieldNone d "rf_role" coerceStr),
     ("tx_power", optFieldNone d "tx_power" coerceInt),
     ("rf_channel_frequency", some ((lookupAssoc "rf_channel_frequency" d).getD PyValue.none)),
     ("rf_channel_width", reqField d "rf_channel_width" coerceInt),
     ("rf_channel", optFieldNone d "rf_channel" coerceStr),
     ("custom_fields", interface_custom_fields_field d)]

/-- `NetboxWirelessApInterfaceModel` end to end: the five pre-root
validators in pydantic order, then the field phase. -/
def run_wireless_ap_interface_model (valid_mac : String → Bool) (d : PyDict) :
    RunOutcome :=
  classifyRun (wireless_ap_interface_root_validators d) (fun d2 =>
    match wireless_ap_interface_field_phase valid_mac d2 with
    | some out => .ok out
    | Option.none => .vErr)

/-- `status` field of the device model: `Optional[str] = "active"`,
validated by `check_device_status` when supplied. -/
def device_status_field (d : PyDict) : Option PyValue :=
  match lookupAssoc "status" d with
  | Option.none => some (PyValue.str "active")
  | some .none => some PyValue.none
  | some v =>
    match coerceStr v with
    | some (.str s) => (check_device_status s).map PyValue.str
    | _ => Option.none

/-- `custom_fields` of the device model
(`NetboxWirelessApDeviceCustomFields`): a required nested model with three
optional WLC-association ints. -/
def device_custom_fields_field (d : PyDict) : Option PyValue :=
  match lookupAssoc "custom_fields" d with
  | some (.dict m) =>
    match optFieldNone m "wlc_primary_association" coerceInt,
        optFieldNone m "wlc_secondary_association" coerceInt,
        optFieldNone m "wlc_tertiary_association" coerceInt with
    | some p, some s, some t =>
      some (PyValue.dict [("wlc_primary_association", p),
                          ("wlc_secondary_association", s),
                          ("wlc_tertiary_association", t)])
    | _, _, _ => Option.none
  | _ => Option.none

/-- Field phase of `NetboxWirelessApDeviceModel`: required
`name` (non-empty) / `serial` / `device_role` / `device_type` / `site`,
optional the rest, `status` via `device_status_field`, and the required
nested custom-fields model. -/
def device_field_phase (d : PyDict) : Option PyDict :=
  collectFields
    [("id", optFieldNone d "id" coerceInt),
     ("name", nonEmptyStrField (reqField d "name" coerceStr)),
     ("serial", reqField d "serial" coerceStr),
     ("asset_tag", optFieldNone d "asset_tag" coerceStr),
     ("device_role", reqField d "device_role" coerceStr),
     ("manufacturer", optFieldNone d "manufacturer" coerceStr),
     ("device_type", reqField d "device_type" coerceStr),
     ("region", optFieldNone d "region" coerceStr),
     ("site", reqField d "site" coerceStr),
     ("location", optFieldNone d "location" coerceStr),
     ("status", device_status_field d),
     ("platform", optFieldNone d "platform" coerceStr),
     ("custom_fields", device_custom_fields_field d)]

/-- `NetboxWirelessApDeviceModel` end to end (it has no root validators). -/
def run_wireless_ap_device_model (d : PyDict) : RunOutcome :=
  match device_field_phase d with
  | some out => .ok out
  | Option.none => .vErr

end NetboxCsvImport

namespace NetboxCsvImport

/-! ## `base_functions.py` -/

/-- The compiled pattern `^(wired|radio\d+)_(.*)$` from
`wireless_functions.py`, as a matcher: on a match, the two groups
(interface prefix, attribute).  The `wired` alternative must be followed
immediately by `_`; the `radio` alternative takes the maximal non-empty
digit run and then requires `_`; `(.*)` takes the remainder (possibly
empty). -/
def interface_regex_match (header : String) : Option (String × String) :=
  match stripPrefixChars header.data "wired_".data with
  | some rest => some ("wired", String.mk rest)
  | Option.none =>
    match stripPrefixChars header.data "radio".data with
    | some rest =>
      let digits := rest.takeWhile Char.isDigit
      match digits, rest.drop digits.length with
      | _ :: _, '_' :: attr =>
        some (String.mk ("radio".data ++ digits), String.mk attr)
      | _, _ => Option.none
    | Option.none => Option.none

/-- One CSV row: ordered column name → string value (`csv.DictReader`). -/
abbrev CsvRow := List (String × String)

/-- The truthiness test `if not interface_dict.get(interface_name):` that
guards seeding (an absent entry, like an empty dict, is falsy; seeded
entries always contain `name` and are truthy). -/
def interfaceEntryTruthy (e : Option CsvRow) : Bool :=
  match e with
  | Option.none => false
  | some entries => !entries.isEmpty

/-- `interface_dict[interface_name].update({attr: value})`: update
the attribute inside the named entry (the entry is always present, having
just been seeded). -/
def updateInterfaceAttr (m : List (String × CsvRow)) (interface_name : String)
    (attr val : String) : List (String × CsvRow) :=
  m.map (fun entry =>
    if entry.1 = interface_name then
      (entry.1, dictSet entry.2 attr val)
    else entry)

/-- Loop body of `generate_import_dicts` for one column: on a matching
column name, seed `interface_dict[prefix] = {name: prefix}` when the
entry is not yet present (truthiness test), add `attribute = value` only
when the value is non-empty, and unconditionally pop the column from the
device dict; other columns leave both dicts alone. -/
def gid_step (matcher : String → Option (String × String))
    (acc : CsvRow × List (String × CsvRow)) (kv : String × String) :
    CsvRow × List (String × CsvRow) :=
  match matcher kv.1 with
  | some (interface_name, interface_attribute) =>
    let m :=
      if interfaceEntryTruthy (lookupAssoc interface_name acc.2) then acc.2
      else dictSet acc.2 interface_name [("name", interface_name)]
    let m :=
      if kv.2 ≠ "" then
        updateInterfaceAttr m interface_name interface_attribute kv.2
      else m
    (dictErase acc.1 kv.1, m)
  | Option.none => acc

/-- `generate_import_dicts` from `base_functions.py`: split one CSV row
into the device dict (starting as a copy of the row) and the nested
interface dict, processing the columns in row order.  The matcher is a
parameter, mirroring the `interface_regex` argument. -/
def generate_import_dicts (matcher : String → Option (String × String))
    (csv_row : CsvRow) : CsvRow × List (String × CsvRow) :=
  csv_row.foldl (gid_step matcher) (csv_row, [])

/-- Python's substring test `key in name`. -/
def strContains (s sub : String) : Bool :=
  listContainsSub s.data sub.data

/-- The two pydantic interface classes selectable by the AP capability map
(`interface_to_validator_class_map`). -/
inductive ValidatorKind where
  | base
  | radio
  deriving DecidableEq

/-- Run the pydantic class designated by a `ValidatorKind`. -/
def run_validator (valid_mac : String → Bool) :
    ValidatorKind → PyDict → RunOutcome
  | .base => run_base_interface_model valid_mac
  | .radio => run_wireless_ap_interface_model valid_mac

/-- `get_interface_validation_model`: with a truthy map and interface
name, the first map entry whose key is a substring of the interface name;
`None` otherwise. -/
def get_interface_validation_model (model_map : List (String × ValidatorKind))
    (interface_name : String) : Option ValidatorKind :=
  if !model_map.isEmpty && interface_name ≠ "" then
    (model_map.find? (fun kv => strContains interface_name kv.1)).map Prod.snd
  else
    Option.none

/-- How `validate_interface_dict` can fail:
* `dataError` — a pydantic `ValidationError`, wrapped into
  `NetboxDataValidationError` by `validate_data` and re-raised as
  `NetboxInterfaceDataValidationError`;
* `noClassOrMapError` — the explicit `NetboxInterfaceDataValidationError`
  ("no validation class or mapping dict provided") raised when neither a
  class nor a map was supplied;
* `pythonEscape e` — a Python exception that none of the handlers catch,
  e.g. the `TypeError` from calling `None(**dict)` when the map matched
  nothing and no default class exists. -/
inductive IfValidationErr where
  | dataError
  | noClassOrMapError
  | pythonEscape (e : PyErr)
  deriving DecidableEq

/-- Loop body of `validate_interface_dict` over the interface entries. -/
def validate_interface_loop (valid_mac : String → Bool)
    (validator_class : Option ValidatorKind)
    (model_map : List (String × ValidatorKind)) :
    List (String × PyDict) → List (String × PyDict) →
      Except IfValidationErr (List (String × PyDict))
  | [], acc => .ok acc
  | (interface_name, interface_data) :: rest, acc =>
    match (get_interface_validation_model model_map interface_name).orElse
        (fun _ => validator_class) with
    | Option.none =>
      -- `validate_data(None, interface_data)` calls `None(**...)`:
      -- TypeError, which no handler in the call chain catches
      .error (.pythonEscape .typeError)
    | some validation_class =>
      match run_validator valid_mac validation_class interface_data with
      | .ok validated => validate_interface_loop valid_mac validator_class
          model_map rest (dictSet acc interface_name validated)
      | .vErr => .error .dataError
      | .pyErr e => .error (.pythonEscape e)

/-- `validate_interface_dict` from `base_functions.py`. -/
def validate_interface_dict (valid_mac : String → Bool)
    (interface_dict : List (String × PyDict))
    (validator_class : Option ValidatorKind)
    (interface_validation_map : Option (List (String × ValidatorKind))) :
    Except IfValidationErr (List (String × PyDict)) :=
  if validator_class.isSome ||
      (match interface_validation_map with
       | some m => !m.isEmpty
       | Option.none => false) then
    validate_interface_loop valid_mac validator_class
      (interface_validation_map.getD []) interface_dict []
  else
    .error .noClassOrMapError

/-- `generate_custom_fields` from `base_functions.py`.  The `Netbox`
instance opened by the `with` block is abstracted by `resolvers`, mapping
an attribute name to the bound method when
`hasattr(netbox, name) and callable(getattr(netbox, name))` holds.

For each map entry with a truthy record value: `hasattr(netbox, None)`
raises `TypeError` when the map holds no method name; otherwise the value
(resolved or passed through) lands in the custom-fields dict and the key
is popped from the record.  Returns (mutated record, custom fields). -/
def generate_custom_fields (resolvers : String → Option (PyValue → PyValue))
    (dict_data : PyDict) (custom_field_map : List (String × Option String)) :
    Except PyErr (PyDict × PyDict) :=
  go custom_field_map dict_data []
where
  go : List (String × Option String) → PyDict → PyDict →
      Except PyErr (PyDict × PyDict)
  | [], dd, cf => .ok (dd, cf)
  | (field_name, field_generator) :: rest, dd, cf =>
    let field_value := pyGet dd field_name
    if field_value.truthy then
      match field_generator with
      | Option.none => .error .typeError
      | some gname =>
        let cf2 :=
          match resolvers gname with
          | some func => dictSet cf field_name (func field_value)
          | Option.none => dictSet cf field_name field_value
        go rest (dictErase dd field_name) cf2
    else
      go rest dd cf

end NetboxCsvImport

namespace NetboxCsvImport

/-! ## `netbox_base.py` / `wireless_classes.py`: payloads and the
reconciliation method `netbox_import` -/

/-- A value as it appears in a NetBox API payload: key fields are sent
raw, everything else is wrapped as `{field: {"slug": value}}`. -/
inductive ApiValue where
  | raw (v : PyValue)
  | slug (v : PyValue)

/-- `device_key_fields` from `netbox_base.py`. -/
def device_key_fields : List String :=
  ["id", "name", "serial", "asset_tag", "status", "custom_fields"]

/-- `interface_key_fields` from `netbox_base.py`. -/
def interface_key_fields : List String :=
  ["id", "name", "mac_address", "enabled", "custom_fields"]

/-- `device_key_fields` from `wireless_classes.py` (the override installed
by `NetboxWirelessAp.__init__`). -/
def wireless_ap_device_key_fields : List String :=
  ["id", "name", "serial", "asset_tag", "status", "custom_fields"]

/-- `interface_key_fields` from `wireless_classes.py` (the override
installed by `NetboxWirelessAp.__init__`). -/
def wireless_ap_interface_key_fields : List String :=
  ["id", "name", "mac_address", "enabled", "rf_role",
   "tx_power", "rf_channel", "custom_fields",
   "rf_channel_frequency", "rf_channel_width"]

/-- `generate_api_dict` from `netbox_base.py`: fields listed in
`key_fields` keep their raw value, every other field is slug-wrapped
(`None` key fields behave like the empty tuple, so the parameter is plain
a list). -/
def generate_api_dict (dict_data : PyDict) (key_fields : List String) :
    List (String × ApiValue) :=
  dict_data.foldl
    (fun api_dict kv =>
      if key_fields.contains kv.1 then
        dictSet api_dict kv.1 (.raw kv.2)
      else
        dictSet api_dict kv.1 (.slug kv.2))
    []

/-- The remote NetBox API as an oracle: the device lookup performed at
construction, the create/update results, and the per-interface identifier
lookup (`get_interface_id` returns `None` when pynetbox finds nothing). -/
structure ApiEnv where
  device_id : Option Int
  create_result : Except String Int
  update_device_result : Except String Unit
  interface_id : String → String → Option Int
  update_interfaces_result : Except String Unit

/-- One remote create/update/lookup call, in the order issued. -/
inductive ApiCall where
  | createDevice (payload : List (String × ApiValue))
  | updateDevice (payload : List (String × ApiValue))
  | lookupInterface (device_name interface_name : String)
  | updateInterfaces (payloads : List (List (String × ApiValue)))

/-- Terminal outcome of `netbox_import` for one record: `imported`
(device + interfaces succeeded), `skipped` (existing device, updates
disabled), or a typed failure (`NetboxDeviceImportError` /
`NetboxInterfaceImportError` re-raised to the caller). -/
inductive ImportOutcome where
  | imported
  | skipped
  | failedDevice
  | failedInterface
  deriving DecidableEq

/-- Severity of the single log line a record outcome produces:
`netbox_import` logs skip and success informationally; the re-raised
errors of the import are caught in `access_point` and logged as errors. -/
inductive LogLevel where
  | info
  | error
  deriving DecidableEq

def outcome_log_level : ImportOutcome → LogLevel
  | .imported => .info
  | .skipped => .info
  | .failedDevice => .error
  | .failedInterface => .error

/-- Whether the record counts as successfully processed (no exception
reaches `access_point`'s error handlers). -/
def record_processed_ok : ImportOutcome → Bool
  | .imported => true
  | .skipped => true
  | _ => false

/-- The state of a `NetboxBaseDevice` (or subclass) after `__init__`:
attributes, the merged `_dict`, the interface container (insertion
order), and the key-field tuples installed on the instance. -/
structure NbDevice where
  name : String
  id : Option Int
  update_mode : Bool
  device_dict : PyDict
  interfaces : List (String × PyDict)
  dev_key_fields : List String
  if_key_fields : List String

/-- The NetBox id as merged into a `_dict` by `_set_id` (`None` while the
device does not exist remotely). -/
def pyOfId : Option Int → PyValue
  | some i => .int i
  | Option.none => .none

/-- Interface-identifier resolution plus batched update, the tail of
`netbox_import` shared by the create and update paths:
`update_interface_ids()` looks every interface up via (device name,
interface name) and merges the id into its dict, then
`_update_interfaces` issues the single batched call carrying every
interface's slugified payload. -/
def interface_phase (env : ApiEnv) (dev : NbDevice) :
    List ApiCall × ImportOutcome :=
  let lookups := dev.interfaces.map
    (fun p => ApiCall.lookupInterface dev.name p.1)
  let updated := dev.interfaces.map
    (fun p => (p.1, dictSet p.2 "id" (pyOfId (env.interface_id dev.name p.1))))
  let payloads := updated.map
    (fun p => generate_api_dict p.2 dev.if_key_fields)
  let outcome :=
    match env.update_interfaces_result with
    | .ok _ => ImportOutcome.imported
    | .error _ => ImportOutcome.failedInterface
  (lookups ++ [ApiCall.updateInterfaces payloads], outcome)

/-- `netbox_import` from `netbox_base.py`: update an existing device when
updates are enabled, skip it otherwise (zero calls, informational log),
create it when absent; a device-call failure aborts before any interface
step; otherwise resolve every interface id and issue the single batched
interface update.  Returns the ordered remote calls and the outcome.
`if self.id` tests Python truthiness; NetBox object ids are ≥ 1 and
`_set_id` stores `None` when the device is absent, so the test coincides
with presence and is embedded as `Option.isSome`. -/
def netbox_import (env : ApiEnv) (dev : NbDevice) :
    List ApiCall × ImportOutcome :=
  let device_payload := generate_api_dict dev.device_dict dev.dev_key_fields
  if dev.id.isSome && dev.update_mode then
    match env.update_device_result with
    | .error _ => ([ApiCall.updateDevice device_payload], .failedDevice)
    | .ok _ =>
      let tail := interface_phase env dev
      (ApiCall.updateDevice device_payload :: tail.1, tail.2)
  else if dev.id.isSome && !dev.update_mode then
    ([], .skipped)
  else
    match env.create_result with
    | .error _ => ([ApiCall.createDevice device_payload], .failedDevice)
    | .ok new_id =>
      let dev2 := { dev with
        id := some new_id,
        device_dict := dictSet dev.device_dict "id" (.int new_id) }
      let tail := interface_phase env dev2
      (ApiCall.createDevice device_payload :: tail.1, tail.2)

/-- `NetboxWirelessAp.__init__`: the base initialiser resolves the device
id remotely (`_set_id` merges it into `_dict`, `None` included), builds
the interface container, and the subclass then overrides both key-field
tuples with the wireless ones. -/
def netbox_wireless_ap (device_id : Option Int) (update_mode : Bool)
    (device_dict : PyDict) (interface_dict : List (String × PyDict)) :
    NbDevice :=
  { name :=
      match lookupAssoc "name" device_dict with
      | some (.str s) => s
      | _ => "",
    id := device_id,
    update_mode := update_mode,
    device_dict := dictSet device_dict "id" (pyOfId device_id),
    interfaces := interface_dict,
    dev_key_fields := wireless_ap_device_key_fields,
    if_key_fields := wireless_ap_interface_key_fields }

/-! ## `wireless_functions.py`: the per-record pipeline -/

/-- `interface_to_validator_class_map`. -/
def interface_to_validator_class_map : List (String × ValidatorKind) :=
  [("wired", .base), ("radio", .radio)]

/-- `device_custom_field_map`. -/
def device_custom_field_map : List (String × Option String) :=
  [("wlc_primary_association", some "get_device_id"),
   ("wlc_secondary_association", some "get_device_id"),
   ("wlc_tertiary_association", some "get_device_id")]

/-- `interface_custom_field_map`: the custom field is mapped to no
resolver method (`None`). -/
def interface_custom_field_map : List (String × Option String) :=
  [("wlc_rf_channel", Option.none)]

/-- What becomes of one record in `access_point` from validation on
(steps 4–5): a validation failure is logged as an error and nothing is
imported; an escaped Python exception crashes the worker; otherwise the
`NetboxWirelessAp` object is built and `netbox_import` runs. -/
inductive RecordResult where
  | deviceValidationFailed
  | interfaceValidationFailed
  | crashed (e : PyErr)
  | ran (calls : List ApiCall) (outcome : ImportOutcome)

/-- Steps 4–5 of `access_point` (validation and import; partitioning and
custom-field enrichment, steps 2–3, are `generate_import_dicts` and
`generate_custom_fields` above).  The device lookup of the constructor and
the custom-field lookups are modelled through `env` and `resolvers`; the
create/update/interface calls of the claims all happen inside
`netbox_import`. -/
def access_point_validate_and_import (valid_mac : String → Bool)
    (env : ApiEnv) (update_mode : Bool) (device_dict : PyDict)
    (interface_dict : List (String × PyDict)) : RecordResult :=
  match run_wireless_ap_device_model device_dict with
  | .vErr => .deviceValidationFailed
  | .pyErr e => .crashed e
  | .ok valid_device =>
    match validate_interface_dict valid_mac interface_dict Option.none
        (some interface_to_validator_class_map) with
    | .error (.pythonEscape e) => .crashed e
    | .error _ => .interfaceValidationFailed
    | .ok valid_interfaces =>
      let dev := netbox_wireless_ap env.device_id update_mode
        valid_device valid_interfaces
      let r := netbox_import env dev
      .ran r.1 r.2

/-- The remote create/update/interface calls a record result carried out
(validation failures and crashes never reach the import step). -/
def remote_calls : RecordResult → List ApiCall
  | .ran calls _ => calls
  | _ => []

end NetboxCsvImport

namespace NetboxCsvImport

/-! ## Helper projections for stating claims -/

/-- The value of a key in a successful validator-chain result. -/
def okLookup (r : Except PyErr PyDict) (k : String) : Option PyValue :=
  match r with
  | .ok d => lookupAssoc k d
  | .error _ => Option.none

/-- The `wlc_rf_channel` custom field of a successful validator-chain
result. -/
def okWlcRfChannel (r : Except PyErr PyDict) : Option String :=
  match okLookup r "custom_fields" with
  | some (.dict m) =>
    match lookupAssoc "wlc_rf_channel" m with
    | some (.str s) => some s
    | _ => Option.none
  | _ => Option.none

/-- The channel codec proper (`set_rf_channel` then
`set_custom_field_rf_channel`) on an already width-resolved state: the
dict holds the band, the int-cast channel number, the resolved width and
the custom-fields dict, exactly as the two earlier validators leave
them. -/
def channel_codec_on (band : String) (channel : Int) (width : Int) :
    Except PyErr PyDict :=
  set_rf_channel [("band", .str band), ("channel_number", .int channel),
    ("rf_channel_width", .int width), ("custom_fields", .dict [])]
    >>= set_custom_field_rf_channel

/-- Every member channel of every tuple of the bonding map resolves to
that tuple's primary, encodes to
`"5g-<primary>-<truncated center frequency>-<width>"` with the frequency
from the table, and yields the controller channel listed for the primary
in the reverse-controller table. -/
def c1_bonding_check : Bool :=
  netbox_channel_width_translation.all (fun wg =>
    wg.2.all (fun g =>
      g.1.all (fun c =>
        let primary := g.2
        let width := wg.1
        match channel_codec_on "5" c width with
        | .ok d =>
          (match lookupAssoc "netbox_channel_number" d with
           | some (.int nb) => nb == primary
           | _ => false) &&
          (match lookupAssoc "rf_channel" d,
              lookupInt primary channel_center_frequencies_tenths with
           | some (.str s), some t => s == s!"5g-{primary}-{t / 10}-{width}"
           | _, _ => false) &&
          (match lookupAssoc "custom_fields" d,
              lookupInt primary netbox_channel_to_cisco_wlc_translation with
           | some (.dict m), some wlc =>
             (match lookupAssoc "wlc_rf_channel" m with
              | some (.str s) => s == toString wlc
              | _ => false)
           | _, _ => false)
        | .error _ => false)))

/-- The full validator chain on the round-trip example of the spec:
`band="5", channel_number=36, width=40` as CSV strings, with the
custom-fields dict merged in (as `access_point` always does before
validation). -/
def c1_round_trip_input : PyDict :=
  [("band", .str "5"), ("channel_number", .str "36"),
   ("channel_width", .str "40"), ("custom_fields", .dict [])]

/-- C1, counterexample.  The claim asserts that encoding yields
`"5g-38-5190.0-40"`; the code formats the center frequency through
`int(...)`, so the produced string is `"5g-38-5190-40"`, which differs. -/
theorem c1_encode_counterexample :
    okLookup (wireless_ap_interface_root_validators c1_round_trip_input)
        "rf_channel" = some (.str "5g-38-5190-40") ∧
      "5g-38-5190-40" ≠ "5g-38-5190.0-40" :=
  ⟨rfl, by decide⟩

/-- C1 (amended): for band "5", channel 36, width 40 the chain resolves
the NetBox channel 38, encodes `"5g-38-5190-40"` (the center frequency
from the table truncated by `int(...)`, not the float rendering
`5190.0`), and derives controller channel 36 — the reverse-table entry of
38; and for every member channel of every tuple in the bonding map
(widths 40/80/160) resolution yields that tuple's primary, encoding
yields `"5g-<primary>-<int center frequency>-<width>"` and the controller
channel equals the primary's entry in the reverse-controller table
(`c1_bonding_check`). -/
theorem c1_channel_round_trip :
    okLookup (wireless_ap_interface_root_validators c1_round_trip_input)
        "netbox_channel_number" = some (.int 38) ∧
      okLookup (wireless_ap_interface_root_validators c1_round_trip_input)
        "rf_channel" = some (.str "5g-38-5190-40") ∧
      okWlcRfChannel (wireless_ap_interface_root_validators c1_round_trip_input)
        = some "36" ∧
      lookupInt 38 netbox_channel_to_cisco_wlc_translation = some 36 ∧
      c1_bonding_check = true :=
  ⟨rfl, rfl, rfl, rfl, by decide⟩

/-- C5: erroneous primary resolution for a band-valid channel that is in
no bonding tuple of its (valid) width.  For every channel allowed on
5 GHz and every width with a bonding table, if no tuple of that width
contains the channel, `set_rf_channel` leaves `netbox_channel_number`
unassigned and the f-string raises `UnboundLocalError`. -/
def c5_unbound_check : Bool :=
  allowed_channel_numbers_5ghz.all (fun c =>
    [(40 : Int), 80, 160].all (fun w =>
      match lookupInt w netbox_channel_width_translation with
      | some groups =>
        if groups.all (fun g => !g.1.contains c) then
          match channel_codec_on "5" c w with
          | .error .unboundLocal => true
          | _ => false
        else
          true
      | Option.none => false))

/-- C5 (code_bug): channel 165 is band-valid for 5 GHz and width 40 is an
allowed width, yet 165 is in no 40 MHz bonding tuple; the full validator
chain then dies with `UnboundLocalError` (`netbox_channel_number`
referenced before assignment) — an exception pydantic does not convert,
so `run_wireless_ap_interface_model` reports an escaped Python error, not
the claimed "channel not valid for band" validation failure.  The same
holds for every allowed channel missing from the bonding tuples of its
width (`c5_unbound_check`). -/
theorem c5_unbound_primary_resolution :
    allowed_channel_numbers_5ghz.contains 165 = true ∧
      allowed_channel_width_5ghz.contains 40 = true ∧
      wireless_ap_interface_root_validators
        [("band", .str "5"), ("channel_number", .str "165"),
         ("channel_width", .str "40"), ("custom_fields", .dict [])]
        = .error .unboundLocal ∧
      run_wireless_ap_interface_model (fun _ => true)
        [("band", .str "5"), ("channel_number", .str "165"),
         ("channel_width", .str "40"), ("custom_fields", .dict [])]
        = .pyErr .unboundLocal ∧
      pydanticWraps .unboundLocal = false ∧
      c5_unbound_check = true :=
  ⟨by decide, by decide, rfl, rfl, rfl, by decide⟩

/-- The 2.4 GHz fixed-width input of the spec (`band="2.4",
channel_number=6`, width unspecified), CSV-style. -/
def c8_input : PyDict :=
  [("band", .str "2.4"), ("channel_number", .str "6"),
   ("custom_fields", .dict [])]

/-- C8, counterexample.  The claim asserts encoding
`"2.4g-6-2437.0-22"`; the code's `int(...)` truncation produces
`"2.4g-6-2437-22"`, which differs. -/
theorem c8_encode_counterexample :
    okLookup (wireless_ap_interface_root_validators c8_input) "rf_channel"
        = some (.str "2.4g-6-2437-22") ∧
      "2.4g-6-2437-22" ≠ "2.4g-6-2437.0-22" :=
  ⟨rfl, by decide⟩

/-- C8 (amended): for band "2.4" with channel 6 the resolved width is
always the fixed 22 — whatever `channel_width` holds, including absent —
the encoding is `"2.4g-6-2437-22"` (integer-truncated center frequency),
and the controller channel equals the original channel number 6. -/
theorem c8_fixed_width :
    (∀ w : PyValue,
      okLookup (wireless_ap_interface_root_validators
          (c8_input ++ [("channel_width", w)])) "rf_channel_width"
          = some (.int 22) ∧
        okLookup (wireless_ap_interface_root_validators
          (c8_input ++ [("channel_width", w)])) "rf_channel"
          = some (.str "2.4g-6-2437-22") ∧
        okWlcRfChannel (wireless_ap_interface_root_validators
          (c8_input ++ [("channel_width", w)])) = some "6") ∧
      okLookup (wireless_ap_interface_root_validators c8_input)
          "rf_channel_width" = some (.int 22) ∧
        okLookup (wireless_ap_interface_root_validators c8_input) "rf_channel"
          = some (.str "2.4g-6-2437-22") ∧
        okWlcRfChannel (wireless_ap_interface_root_validators c8_input)
          = some "6" :=
  ⟨fun _ => ⟨rfl, rfl, rfl⟩, rfl, rfl, rfl⟩

end NetboxCsvImport

namespace NetboxCsvImport

/-! ## C2 / C3: `netbox_import` ordering, atomicity and the skip path -/

/-- C2: create-then-interface-resolve ordering and device-failure
atomicity.  For a device whose remote lookup returned no identifier,
`netbox_import` issues the create call first; if the create fails, that
single call is the whole trace and the outcome is the device-kind import
failure; if it succeeds, the trace is exactly the create call, then one
interface-identifier lookup per interface keyed by (device name,
interface name) in container order, then the single batched interface
update.  The update path behaves the same way: interface resolution runs
only after the device-update call completed successfully. -/
theorem c2_create_then_interface_resolve :
    (∀ (env : ApiEnv) (dev : NbDevice) (e : String),
      dev.id = Option.none → env.create_result = .error e →
        netbox_import env dev =
          ([ApiCall.createDevice (generate_api_dict dev.device_dict dev.dev_key_fields)],
           ImportOutcome.failedDevice)) ∧
    (∀ (env : ApiEnv) (dev : NbDevice) (new_id : Int),
      dev.id = Option.none → env.create_result = .ok new_id →
        (netbox_import env dev).1 =
          ApiCall.createDevice (generate_api_dict dev.device_dict dev.dev_key_fields)
            :: (dev.interfaces.map (fun p => ApiCall.lookupInterface dev.name p.1)
              ++ [ApiCall.updateInterfaces ((dev.interfaces.map (fun p =>
                    (p.1, dictSet p.2 "id"
                      (pyOfId (env.interface_id dev.name p.1))))).map
                  (fun p => generate_api_dict p.2 dev.if_key_fields))])) ∧
    (∀ (env : ApiEnv) (dev : NbDevice) (i : Int) (e : String),
      dev.id = some i → dev.update_mode = true →
      env.update_device_result = .error e →
        netbox_import env dev =
          ([ApiCall.updateDevice (generate_api_dict dev.device_dict dev.dev_key_fields)],
           ImportOutcome.failedDevice)) ∧
    (∀ (env : ApiEnv) (dev : NbDevice) (i : Int),
      dev.id = some i → dev.update_mode = true →
      env.update_device_result = .ok () →
        (netbox_import env dev).1 =
          ApiCall.updateDevice (generate_api_dict dev.device_dict dev.dev_key_fields)
            :: (dev.interfaces.map (fun p => ApiCall.lookupInterface dev.name p.1)
              ++ [ApiCall.updateInterfaces ((dev.interfaces.map (fun p =>
                    (p.1, dictSet p.2 "id"
                      (pyOfId (env.interface_id dev.name p.1))))).map
                  (fun p => generate_api_dict p.2 dev.if_key_fields))])) := by
  refine ⟨?_, ?_, ?_, ?_⟩
  · intro env dev e hid hcr
    simp [netbox_import, hid, hcr]
  · intro env dev new_id hid hcr
    simp [netbox_import, hid, hcr, interface_phase]
  · intro env dev i e hid hupd hu
    simp [netbox_import, hid, hupd, hu]
  · intro env dev i hid hupd hu
    simp [netbox_import, hid, hupd, hu, interface_phase]

/-- C2, witness: a concrete device with two interfaces against an
environment whose create call fails, and the same device against one
whose create call succeeds. -/
theorem c2_create_then_interface_resolve_witness :
    (netbox_import
        { device_id := Option.none, create_result := .error "http 400",
          update_device_result := .ok (), interface_id := fun _ _ => some 7,
          update_interfaces_result := .ok () }
        { name := "ap2", id := Option.none, update_mode := true,
          device_dict := [("name", .str "ap2")],
          interfaces := [("wired", [("name", .str "wired")]),
                         ("radio0", [("name", .str "radio0")])],
          dev_key_fields := wireless_ap_device_key_fields,
          if_key_fields := wireless_ap_interface_key_fields } =
      ([ApiCall.createDevice (generate_api_dict [("name", .str "ap2")]
          wireless_ap_device_key_fields)], ImportOutcome.failedDevice)) ∧
    ((netbox_import
        { device_id := Option.none, create_result := .ok 42,
          update_device_result := .ok (), interface_id := fun _ _ => some 7,
          update_interfaces_result := .ok () }
        { name := "ap2", id := Option.none, update_mode := true,
          device_dict := [("name", .str "ap2")],
          interfaces := [("wired", [("name", .str "wired")]),
                         ("radio0", [("name", .str "radio0")])],
          dev_key_fields := wireless_ap_device_key_fields,
          if_key_fields := wireless_ap_interface_key_fields }).1 =
      ApiCall.createDevice (generate_api_dict [("name", .str "ap2")]
          wireless_ap_device_key_fields)
        :: ([ApiCall.lookupInterface "ap2" "wired",
             ApiCall.lookupInterface "ap2" "radio0"]
          ++ [ApiCall.updateInterfaces
               [generate_api_dict [("name", .str "wired"), ("id", .int 7)]
                  wireless_ap_interface_key_fields,
                generate_api_dict [("name", .str "radio0"), ("id", .int 7)]
                  wireless_ap_interface_key_fields]])) := by
  constructor
  · exact c2_create_then_interface_resolve.1 _ _ "http 400" rfl rfl
  · have h := c2_create_then_interface_resolve.2.1
      { device_id := Option.none, create_result := .ok 42,
        update_device_result := .ok (), interface_id := fun _ _ => some 7,
        update_interfaces_result := .ok () }
      { name := "ap2", id := Option.none, update_mode := true,
        device_dict := [("name", .str "ap2")],
        interfaces := [("wired", [("name", .str "wired")]),
                       ("radio0", [("name", .str "radio0")])],
        dev_key_fields := wireless_ap_device_key_fields,
        if_key_fields := wireless_ap_interface_key_fields }
      42 rfl rfl
    exact h.trans rfl

/-- C3: the skip path.  For every device whose remote lookup yielded an
identifier while update mode is disabled, `netbox_import` issues zero
remote calls, returns the `skipped` outcome, its log line is
informational, and the record counts as successfully processed. -/
theorem c3_skip_path (env : ApiEnv) (dev : NbDevice) (existing_id : Int)
    (hid : dev.id = some existing_id) (hupd : dev.update_mode = false) :
    netbox_import env dev = ([], ImportOutcome.skipped) ∧
      outcome_log_level ImportOutcome.skipped = LogLevel.info ∧
      record_processed_ok ImportOutcome.skipped = true := by
  refine ⟨?_, rfl, rfl⟩
  simp [netbox_import, hid, hupd]

/-- C3, witness: a concrete existing device with updates disabled. -/
theorem c3_skip_path_witness :
    netbox_import
        { device_id := some 3, create_result := .error "unused",
          update_device_result := .ok (), interface_id := fun _ _ => Option.none,
          update_interfaces_result := .ok () }
        { name := "ap1", id := some 3, update_mode := false,
          device_dict := [("name", .str "ap1"), ("id", .int 3)],
          interfaces := [("wired", [("name", .str "wired")])],
          dev_key_fields := wireless_ap_device_key_fields,
          if_key_fields := wireless_ap_interface_key_fields } =
      ([], ImportOutcome.skipped) ∧
      outcome_log_level ImportOutcome.skipped = LogLevel.info ∧
      record_processed_ok ImportOutcome.skipped = true :=
  c3_skip_path _ _ 3 rfl rfl

end NetboxCsvImport

namespace NetboxCsvImport

/-! ## C7: invalid channels are rejected before reconciliation -/

/-- `mac_to_mac_address` never fails; its result dict. -/
def macAlias (d : PyDict) : PyDict :=
  if (pyGet d "mac").truthy then dictSet d "mac_address" (pyGet d "mac") else d

theorem mac_to_mac_address_eq_ok (d : PyDict) :
    mac_to_mac_address d = .ok (macAlias d) := by
  unfold mac_to_mac_address macAlias
  split <;> rfl

theorem lookupAssoc_macAlias (d : PyDict) (k : String) (hk : k ≠ "mac_address") :
    lookupAssoc k (macAlias d) = lookupAssoc k d := by
  unfold macAlias
  split
  · exact lookupAssoc_dictSet_ne d "mac_address" k _ hk
  · rfl

/-- Any pydantic-wrapped error raised by `validate_channel` makes the
whole wireless interface model report a `ValidationError`. -/
theorem run_model_vErr_of_validate_channel (vm : String → Bool) (d : PyDict)
    (e : PyErr) (hwrap : pydanticWraps e = true)
    (h : validate_channel (macAlias d) = .error e) :
    run_wireless_ap_interface_model vm d = .vErr := by
  unfold run_wireless_ap_interface_model wireless_ap_interface_root_validators
  rw [mac_to_mac_address_eq_ok]
  show classifyRun (Except.bind (Except.bind (Except.bind
    (Except.bind (Except.ok (macAlias d)) validate_channel)
    validate_channel_width) set_rf_channel) set_custom_field_rf_channel) _ = _
  rw [show Except.bind (Except.ok (macAlias d)) validate_channel
    = validate_channel (macAlias d) from rfl, h]
  simp [Except.bind, classifyRun, hwrap]

/-- `validate_channel` fails for any channel int outside the allowed
5 GHz list: with the `ValueError` of the falsy-channel guard when the int
is 0, with the membership `AssertionError` otherwise. -/
theorem validate_channel_invalid_int_5ghz (d : PyDict) (n : Int)
    (hb : lookupAssoc "band" d = some (.str "5"))
    (hcn : lookupAssoc "channel_number" d = some (.int n))
    (hna : allowed_channel_numbers_5ghz.contains n = false) :
    validate_channel d =
      .error (if n = 0 then PyErr.valueError else PyErr.assertionError) := by
  unfold validate_channel
  rw [show pyGet d "band" = .str "5" by simp [pyGet, hb]]
  rw [show pyGet d "channel_number" = .int n by simp [pyGet, hcn]]
  by_cases h0 : n = 0
  · subst h0
    rfl
  · rw [if_neg h0]
    simp only [PyValue.truthy, decide_eq_true_eq]
    rw [if_pos (by decide)]
    rw [if_neg (by simp [h0])]
    have hmem : ¬ n ∈ allowed_channel_numbers_5ghz := by simpa using hna
    simp [pyInt, pyEqStr, hmem, Bind.bind, Except.bind, Except.map, throw,
      throwThe, MonadExceptOf.throw, pure, Except.pure]

/-- Same for 2.4 GHz. -/
theorem validate_channel_invalid_int_24ghz (d : PyDict) (n : Int)
    (hb : lookupAssoc "band" d = some (.str "2.4"))
    (hcn : lookupAssoc "channel_number" d = some (.int n))
    (hna : allowed_channel_numbers_24ghz.contains n = false) :
    validate_channel d =
      .error (if n = 0 then PyErr.valueError else PyErr.assertionError) := by
  unfold validate_channel
  rw [show pyGet d "band" = .str "2.4" by simp [pyGet, hb]]
  rw [show pyGet d "channel_number" = .int n by simp [pyGet, hcn]]
  by_cases h0 : n = 0
  · subst h0
    rfl
  · rw [if_neg h0]
    simp only [PyValue.truthy, decide_eq_true_eq]
    rw [if_pos (by decide)]
    rw [if_neg (by simp [h0])]
    have hmem : ¬ n ∈ allowed_channel_numbers_24ghz := by simpa using hna
    simp [pyInt, pyEqStr, hmem, Bind.bind, Except.bind, Except.map, throw,
      throwThe, MonadExceptOf.throw, pure, Except.pure]

end NetboxCsvImport

namespace NetboxCsvImport

/-- The concrete spec instance: channel `"45"` on band `"5"` trips the
5 GHz assertion. -/
theorem validate_channel_channel45 (d : PyDict)
    (hb : lookupAssoc "band" d = some (.str "5"))
    (hcn : lookupAssoc "channel_number" d = some (.str "45")) :
    validate_channel d = .error .assertionError := by
  unfold validate_channel
  rw [show pyGet d "band" = .str "5" by simp [pyGet, hb]]
  rw [show pyGet d "channel_number" = .str "45" by simp [pyGet, hcn]]
  rfl

/-- A wrapped `validate_channel` failure on the raw dict carries over to
the aliased dict and hence to the whole model run, provided the two keys
it reads are untouched by the alias step. -/
theorem run_model_vErr_of_validate_channel_raw (vm : String → Bool) (d : PyDict)
    (e : PyErr) (hwrap : pydanticWraps e = true)
    (h : ∀ d2 : PyDict, lookupAssoc "band" d2 = lookupAssoc "band" d →
      lookupAssoc "channel_number" d2 = lookupAssoc "channel_number" d →
      validate_channel d2 = .error e) :
    run_wireless_ap_interface_model vm d = .vErr :=
  run_model_vErr_of_validate_channel vm d e hwrap
    (h (macAlias d) (lookupAssoc_macAlias d "band" (by decide))
      (lookupAssoc_macAlias d "channel_number" (by decide)))

/-- A single-interface dict named `radio0` whose model run reports a
`ValidationError` makes `validate_interface_dict` fail with the wrapped
interface-data error. -/
theorem validate_interface_dict_radio0_dataError (vm : String → Bool)
    (d : PyDict) (h : run_wireless_ap_interface_model vm d = .vErr) :
    validate_interface_dict vm [("radio0", d)] Option.none
      (some interface_to_validator_class_map) = .error .dataError := by
  unfold validate_interface_dict
  rw [if_pos (by decide)]
  unfold validate_interface_loop
  simp only [Option.getD]
  rw [show (get_interface_validation_model interface_to_validator_class_map
    "radio0").orElse (fun _ => Option.none) = some ValidatorKind.radio from rfl]
  show (match run_validator vm ValidatorKind.radio d with
    | .ok validated => validate_interface_loop vm Option.none
        interface_to_validator_class_map []
        (dictSet [] "radio0" validated)
    | .vErr => .error .dataError
    | .pyErr e => .error (.pythonEscape e)) = .error .dataError
  rw [show run_validator vm ValidatorKind.radio d
    = run_wireless_ap_interface_model vm d from rfl, h]

/-- A failing interface validation leaves `access_point` without any
remote create/update/interface call: the `NetboxWirelessAp` object is
never constructed. -/
theorem no_remote_calls_of_interface_validation_failure
    (vm : String → Bool) (env : ApiEnv) (um : Bool) (dd : PyDict)
    (idicts : List (String × PyDict)) (err : IfValidationErr)
    (h : validate_interface_dict vm idicts Option.none
      (some interface_to_validator_class_map) = .error err) :
    remote_calls (access_point_validate_and_import vm env um dd idicts) = [] := by
  unfold access_point_validate_and_import
  cases hdev : run_wireless_ap_device_model dd with
  | vErr => rfl
  | pyErr e => rfl
  | ok vd =>
    rw [h]
    cases err with
    | dataError => rfl
    | noClassOrMapError => rfl
    | pythonEscape e => rfl

/-- C7: invalid channels are rejected before any reconciliation step.
The allowed 2.4 GHz set is exactly {1, 6, 11}; the allowed 5 GHz set is
exactly the union of the four bonding-width channel ranges minus the
denial set; band "5" with channel `"45"` (and in general any channel int
outside the allowed set of its band) makes the interface model raise a
`ValidationError`, surfaced by `validate_interface_dict` as the
interface-data validation error; and whenever interface validation fails,
`access_point` issues zero remote create/update/interface calls. -/
theorem c7_invalid_channel_rejected :
    allowed_channel_numbers_24ghz = [1, 6, 11] ∧
    (∀ c : Int, c ∈ allowed_channel_numbers_5ghz ↔
      ((c ∈ channel_range_5ghz_20mhz ∨ c ∈ channel_range_5ghz_40mhz ∨
        c ∈ channel_range_5ghz_80mhz ∨ c ∈ channel_range_5ghz_160mhz) ∧
       c ∉ denied_channel_numbers_5ghz)) ∧
    (∀ (vm : String → Bool) (d : PyDict),
      lookupAssoc "band" d = some (.str "5") →
      lookupAssoc "channel_number" d = some (.str "45") →
      run_wireless_ap_interface_model vm d = .vErr ∧
        validate_interface_dict vm [("radio0", d)] Option.none
          (some interface_to_validator_class_map) = .error .dataError) ∧
    (∀ (vm : String → Bool) (d : PyDict) (n : Int),
      lookupAssoc "band" d = some (.str "5") →
      lookupAssoc "channel_number" d = some (.int n) →
      allowed_channel_numbers_5ghz.contains n = false →
      run_wireless_ap_interface_model vm d = .vErr) ∧
    (∀ (vm : String → Bool) (env : ApiEnv) (um : Bool) (dd : PyDict)
       (idicts : List (String × PyDict)) (err : IfValidationErr),
      validate_interface_dict vm idicts Option.none
        (some interface_to_validator_class_map) = .error err →
      remote_calls (access_point_validate_and_import vm env um dd idicts) = []) := by
  refine ⟨by decide, ?_, ?_, ?_, no_remote_calls_of_interface_validation_failure⟩
  · intro c
    simp only [allowed_channel_numbers_5ghz, valid_channel_numbers_5ghz,
      List.mem_filter, List.mem_insertionSort, List.mem_append]
    constructor
    · rintro ⟨hm, hc⟩
      refine ⟨by tauto, ?_⟩
      simpa using hc
    · rintro ⟨hm, hc⟩
      refine ⟨by tauto, ?_⟩
      simpa using hc
  · intro vm d hb hcn
    have hrun : run_wireless_ap_interface_model vm d = .vErr := by
      refine run_model_vErr_of_validate_channel_raw vm d .assertionError rfl ?_
      intro d2 h1 h2
      exact validate_channel_channel45 d2 (h1.trans hb) (h2.trans hcn)
    exact ⟨hrun, validate_interface_dict_radio0_dataError vm d hrun⟩
  · intro vm d n hb hcn hna
    refine run_model_vErr_of_validate_channel_raw vm d
      (if n = 0 then PyErr.valueError else PyErr.assertionError)
      (by by_cases h0 : n = 0 <;> simp [h0, pydanticWraps]) ?_
    intro d2 h1 h2
    exact validate_channel_invalid_int_5ghz d2 n (h1.trans hb) (h2.trans hcn) hna

end NetboxCsvImport

namespace NetboxCsvImport

/-- C8, witness: the fixed width is used even against an explicit
requested width value (`"80"`). -/
theorem c8_fixed_width_witness :
    okLookup (wireless_ap_interface_root_validators
        (c8_input ++ [("channel_width", .str "80")])) "rf_channel_width"
        = some (.int 22) ∧
      okLookup (wireless_ap_interface_root_validators
        (c8_input ++ [("channel_width", .str "80")])) "rf_channel"
        = some (.str "2.4g-6-2437-22") ∧
      okWlcRfChannel (wireless_ap_interface_root_validators
        (c8_input ++ [("channel_width", .str "80")])) = some "6" :=
  c8_fixed_width.1 (.str "80")

/-- C7, witness: the concrete channel-45 record is rejected with the
interface-data validation error and `access_point` issues no remote
call for it. -/
theorem c7_invalid_channel_rejected_witness :
    run_wireless_ap_interface_model (fun _ => true)
        [("band", .str "5"), ("channel_number", .str "45"),
         ("custom_fields", .dict [])] = .vErr ∧
      validate_interface_dict (fun _ => true)
        [("radio0", [("band", .str "5"), ("channel_number", .str "45"),
          ("custom_fields", .dict [])])] Option.none
        (some interface_to_validator_class_map) = .error .dataError ∧
      remote_calls (access_point_validate_and_import (fun _ => true)
        { device_id := Option.none, create_result := .ok 1,
          update_device_result := .ok (), interface_id := fun _ _ => Option.none,
          update_interfaces_result := .ok () } true []
        [("radio0", [("band", .str "5"), ("channel_number", .str "45"),
          ("custom_fields", .dict [])])]) = [] := by
  obtain ⟨hrun, hvd⟩ := c7_invalid_channel_rejected.2.2.1 (fun _ => true)
    [("band", .str "5"), ("channel_number", .str "45"),
     ("custom_fields", .dict [])] rfl rfl
  exact ⟨hrun, hvd, c7_invalid_channel_rejected.2.2.2.2 (fun _ => true)
    { device_id := Option.none, create_result := .ok 1,
      update_device_result := .ok (), interface_id := fun _ _ => Option.none,
      update_interfaces_result := .ok () } true [] _ .dataError hvd⟩

end NetboxCsvImport

namespace NetboxCsvImport

/-! ## C6 / C10: the `TypeError` code bugs -/

/-- C6 (code_bug): for an interface whose name contains no key of the
supplied capability map and with no default class,
`get_interface_validation_model` returns `None` and `validate_data(None,
...)` calls `None(**dict)` — a `TypeError` that escapes every handler —
instead of the claimed "no schema" `NetboxInterfaceDataValidationError`.
The explicit no-schema error fires only when neither a class nor a map
was supplied at all. -/
theorem c6_no_schema_is_typeerror :
    get_interface_validation_model interface_to_validator_class_map "eth0"
        = Option.none ∧
      validate_interface_dict (fun _ => true)
        [("eth0", [("name", .str "eth0")])] Option.none
        (some interface_to_validator_class_map)
        = .error (.pythonEscape .typeError) ∧
      IfValidationErr.pythonEscape .typeError ≠ IfValidationErr.dataError ∧
      IfValidationErr.pythonEscape .typeError ≠ IfValidationErr.noClassOrMapError ∧
      validate_interface_dict (fun _ => true)
        [("eth0", [("name", .str "eth0")])] Option.none Option.none
        = .error .noClassOrMapError ∧
      (∀ (vm : String → Bool) (interface_name : String) (d : PyDict),
        get_interface_validation_model interface_to_validator_class_map
          interface_name = Option.none →
        validate_interface_dict vm [(interface_name, d)] Option.none
          (some interface_to_validator_class_map)
          = .error (.pythonEscape .typeError)) := by
  refine ⟨rfl, rfl, by decide, by decide, rfl, ?_⟩
  intro vm interface_name d h
  unfold validate_interface_dict
  rw [if_pos (by decide)]
  unfold validate_interface_loop
  simp only [Option.getD]
  rw [h]
  rfl

/-- C6, witness: the general no-match consequence applied to the
concrete interface name `"mgmt0"`. -/
theorem c6_no_schema_is_typeerror_witness :
    validate_interface_dict (fun _ => true)
        [("mgmt0", [("name", .str "mgmt0")])] Option.none
        (some interface_to_validator_class_map)
        = .error (.pythonEscape .typeError) :=
  c6_no_schema_is_typeerror.2.2.2.2.2 (fun _ => true) "mgmt0"
    [("name", .str "mgmt0")] rfl

/-- C10 (code_bug): `generate_custom_fields` on the repository's own
`interface_custom_field_map` (`{"wlc_rf_channel": None}`) with a record
holding a non-empty value for that key does not pass the value through —
`hasattr(netbox, None)` raises `TypeError: attribute name must be string`
regardless of what methods the `Netbox` instance offers, contradicting
the function's documented `None`-passthrough. -/
theorem c10_custom_fields_none_resolver_typeerror :
    PyValue.truthy (.str "36") = true ∧
      (∀ resolvers : String → Option (PyValue → PyValue),
        generate_custom_fields resolvers [("wlc_rf_channel", .str "36")]
          interface_custom_field_map = .error .typeError) :=
  ⟨rfl, fun _ => rfl⟩

/-- C10, witness: the failing input against a `Netbox` instance with no
resolvable methods at all. -/
theorem c10_custom_fields_none_resolver_typeerror_witness :
    generate_custom_fields (fun _ => Option.none)
        [("wlc_rf_channel", .str "36")] interface_custom_field_map
        = .error .typeError :=
  c10_custom_fields_none_resolver_typeerror.2 (fun _ => Option.none)

end NetboxCsvImport

namespace NetboxCsvImport

/-! ## C9: payload slugification -/

theorem mem_dictSet {α : Type} {d : List (String × α)} {k : String} {v : α}
    {p : String × α} (h : p ∈ dictSet d k v) : p = (k, v) ∨ p ∈ d := by
  unfold dictSet at h
  split at h
  · obtain ⟨q, hq, hqe⟩ := List.mem_map.mp h
    by_cases hk : q.1 = k
    · left
      rw [← hqe]
      simp [hk]
    · right
      rw [← hqe]
      simpa [hk] using hq
  · rcases List.mem_append.mp h with h | h
    · exact Or.inr h
    · left
      simpa using h

/-- Every field of a `generate_api_dict` payload is raw when allowlisted
and slug-wrapped otherwise. -/
def payload_fields_ok (p : List (String × ApiValue)) (kf : List String) : Prop :=
  ∀ q ∈ p, (q.1 ∈ kf → ∃ v, q.2 = ApiValue.raw v) ∧
    (q.1 ∉ kf → ∃ v, q.2 = ApiValue.slug v)

theorem generate_api_dict_aux_fields_ok (kf : List String) :
    ∀ (d : PyDict) (acc : List (String × ApiValue)),
      payload_fields_ok acc kf →
      payload_fields_ok (d.foldl
        (fun api_dict kv =>
          if kf.contains kv.1 then dictSet api_dict kv.1 (.raw kv.2)
          else dictSet api_dict kv.1 (.slug kv.2)) acc) kf := by
  intro d
  induction d with
  | nil => intro acc hacc; exact hacc
  | cons hd tl ih =>
    intro acc hacc
    simp only [List.foldl_cons]
    apply ih
    intro q hq
    split at hq
    · rcases mem_dictSet hq with he | hm
      · subst he
        rename_i hc
        constructor
        · intro _
          exact ⟨hd.2, rfl⟩
        · intro hnot
          exact absurd (by simpa using hc) hnot
      · exact hacc q hm
    · rcases mem_dictSet hq with he | hm
      · subst he
        rename_i hc
        constructor
        · intro hmem
          exact absurd hmem (by simpa using hc)
        · intro _
          exact ⟨hd.2, rfl⟩
      · exact hacc q hm

theorem generate_api_dict_fields_ok (d : PyDict) (kf : List String) :
    payload_fields_ok (generate_api_dict d kf) kf := by
  unfold generate_api_dict
  exact generate_api_dict_aux_fields_ok kf d [] (by intro q hq; cases hq)

theorem dictSet_fresh {α : Type} (d : List (String × α)) (k : String) (v : α)
    (h : lookupAssoc k d = Option.none) : dictSet d k v = d ++ [(k, v)] := by
  unfold dictSet
  rw [any_key_eq_isSome_lookupAssoc, h]
  rfl

theorem generate_api_dict_aux_map (kf : List String) :
    ∀ (d : PyDict) (acc : List (String × ApiValue)),
      (∀ k, k ∈ d.map Prod.fst → lookupAssoc k acc = Option.none) →
      (d.map Prod.fst).Nodup →
      d.foldl
        (fun api_dict kv =>
          if kf.contains kv.1 then dictSet api_dict kv.1 (.raw kv.2)
          else dictSet api_dict kv.1 (.slug kv.2)) acc
        = acc ++ d.map (fun kv =>
            (kv.1, if kf.contains kv.1 then ApiValue.raw kv.2
              else ApiValue.slug kv.2)) := by
  intro d
  induction d with
  | nil => intro acc _ _; simp
  | cons hd tl ih =>
    intro acc hfresh hnodup
    have hfr : lookupAssoc hd.1 acc = Option.none := hfresh hd.1 (by simp)
    have hstep : (if kf.contains hd.1 then dictSet acc hd.1 (.raw hd.2)
        else dictSet acc hd.1 (.slug hd.2))
        = acc ++ [(hd.1, if kf.contains hd.1 then ApiValue.raw hd.2
            else ApiValue.slug hd.2)] := by
      split <;> rw [dictSet_fresh _ _ _ hfr]
    simp only [List.foldl_cons, hstep]
    rw [ih]
    · simp
    · intro k hk
      rw [lookupAssoc_append]
      rw [hfresh k (by simp [hk])]
      have hne : hd.1 ≠ k := by
        simp only [List.map_cons, List.nodup_cons] at hnodup
        intro he
        exact hnodup.1 (he ▸ hk)
      simp [hne]
    · simpa using (List.nodup_cons.mp (by simpa using hnodup)).2

theorem generate_api_dict_map (d : PyDict) (kf : List String)
    (h : (d.map Prod.fst).Nodup) :
    generate_api_dict d kf = d.map (fun kv =>
      (kv.1, if kf.contains kv.1 then ApiValue.raw kv.2
        else ApiValue.slug kv.2)) := by
  unfold generate_api_dict
  rw [generate_api_dict_aux_map kf d [] (fun k _ => rfl) h]
  rfl

/-- Payload soundness of one remote call of the wireless AP pipeline:
device payloads obey the device allowlist, batched interface payloads the
wireless interface allowlist. -/
def call_payloads_ok (c : ApiCall) : Prop :=
  match c with
  | .createDevice p => payload_fields_ok p wireless_ap_device_key_fields
  | .updateDevice p => payload_fields_ok p wireless_ap_device_key_fields
  | .lookupInterface _ _ => True
  | .updateInterfaces ps =>
    ∀ p ∈ ps, payload_fields_ok p wireless_ap_interface_key_fields

theorem interface_phase_calls_ok (env : ApiEnv) (dev : NbDevice)
    (hkf : dev.if_key_fields = wireless_ap_interface_key_fields)
    (c : ApiCall) (hc : c ∈ (interface_phase env dev).1) :
    call_payloads_ok c := by
  unfold interface_phase at hc
  simp only [List.mem_append] at hc
  rcases hc with hc | hc
  · obtain ⟨p, _, hpe⟩ := List.mem_map.mp hc
    rw [← hpe]
    exact trivial
  · rw [List.mem_singleton.mp hc]
    intro p hp
    simp only [List.map_map, List.mem_map] at hp
    obtain ⟨q, _, hqe⟩ := hp
    rw [← hqe, ← hkf]
    exact generate_api_dict_fields_ok _ _

theorem netbox_import_calls_ok (env : ApiEnv) (dev : NbDevice)
    (hdkf : dev.dev_key_fields = wireless_ap_device_key_fields)
    (hikf : dev.if_key_fields = wireless_ap_interface_key_fields)
    (c : ApiCall) (hc : c ∈ (netbox_import env dev).1) :
    call_payloads_ok c := by
  unfold netbox_import at hc
  have hdev : payload_fields_ok
      (generate_api_dict dev.device_dict dev.dev_key_fields)
      wireless_ap_device_key_fields := by
    rw [← hdkf]
    exact generate_api_dict_fields_ok _ _
  split at hc
  · split at hc
    · rw [List.mem_singleton.mp hc]
      exact hdev
    · rcases List.mem_cons.mp hc with he | hm
      · rw [he]
        exact hdev
      · exact interface_phase_calls_ok env dev hikf c hm
  · split at hc
    · cases hc
    · split at hc
      · rw [List.mem_singleton.mp hc]
        exact hdev
      · rcases List.mem_cons.mp hc with he | hm
        · rw [he]
          exact hdev
        · exact interface_phase_calls_ok env _ hikf c hm

/-- C9: slugification.  The wireless AP device/interface allowlists are
exactly the claimed field lists; on a dict with distinct keys
`generate_api_dict` sends each allowlisted field with its raw value and
wraps every other field as a slug; and every payload `netbox_import`
sends for a `NetboxWirelessAp`-constructed device obeys the matching
allowlist. -/
theorem c9_slugification :
    wireless_ap_device_key_fields
        = ["id", "name", "serial", "asset_tag", "status", "custom_fields"] ∧
      wireless_ap_interface_key_fields
        = ["id", "name", "mac_address", "enabled", "rf_role", "tx_power",
           "rf_channel", "custom_fields", "rf_channel_frequency",
           "rf_channel_width"] ∧
      (∀ (d : PyDict) (kf : List String), (d.map Prod.fst).Nodup →
        generate_api_dict d kf = d.map (fun kv =>
          (kv.1, if kf.contains kv.1 then ApiValue.raw kv.2
            else ApiValue.slug kv.2))) ∧
      (∀ (env : ApiEnv) (devid : Option Int) (um : Bool) (vd : PyDict)
         (vi : List (String × PyDict)) (c : ApiCall),
        c ∈ (netbox_import env (netbox_wireless_ap devid um vd vi)).1 →
        call_payloads_ok c) :=
  ⟨rfl, rfl, generate_api_dict_map,
   fun env devid um vd vi c hc =>
     netbox_import_calls_ok env (netbox_wireless_ap devid um vd vi) rfl rfl c hc⟩

/-- C9, witness: the characterization on a concrete two-field device dict
(non-key `site` slug-wrapped, key `name` raw), and payload soundness of
the concrete create call of a fresh device. -/
theorem c9_slugification_witness :
    generate_api_dict [("site", .str "hq"), ("name", .str "ap1")]
        wireless_ap_device_key_fields
        = [("site", ApiValue.slug (.str "hq")),
           ("name", ApiValue.raw (.str "ap1"))] ∧
      call_payloads_ok (ApiCall.createDevice
        (generate_api_dict [("name", PyValue.str "ap1"), ("id", PyValue.none)]
          wireless_ap_device_key_fields)) := by
  constructor
  · rw [c9_slugification.2.2.1 [("site", .str "hq"), ("name", .str "ap1")]
      wireless_ap_device_key_fields (by decide)]
    rfl
  · refine c9_slugification.2.2.2
      { device_id := Option.none, create_result := .error "http 400",
        update_device_result := .ok (), interface_id := fun _ _ => Option.none,
        update_interfaces_result := .ok () }
      Option.none true [("name", .str "ap1")] [] _ ?_
    show ApiCall.createDevice _ ∈ [ApiCall.createDevice
      (generate_api_dict (dictSet [("name", PyValue.str "ap1")] "id"
        (pyOfId Option.none)) wireless_ap_device_key_fields)]
    rw [show dictSet [("name", PyValue.str "ap1")] "id" (pyOfId Option.none)
      = [("name", PyValue.str "ap1"), ("id", PyValue.none)] from rfl]
    exact List.mem_singleton.mpr rfl

end NetboxCsvImport

namespace NetboxCsvImport

/-! ## C4: partition correctness of `generate_import_dicts` -/

theorem dictSet_ne_nil {α : Type} (d : List (String × α)) (k : String) (v : α) :
    dictSet d k v ≠ [] := by
  unfold dictSet
  split
  · rename_i h
    cases d with
    | nil => simp at h
    | cons hd tl => simp
  · simp

theorem updateInterfaceAttr_cons (k : String) (e : CsvRow)
    (tl : List (String × CsvRow)) (q a v : String) :
    updateInterfaceAttr ((k, e) :: tl) q a v
      = (if k = q then (k, dictSet e a v) else (k, e))
        :: updateInterfaceAttr tl q a v := by
  rfl

theorem updateInterfaceAttr_lookup_ne (im : List (String × CsvRow))
    (q q' : String) (a v : String) (h : q' ≠ q) :
    lookupAssoc q' (updateInterfaceAttr im q a v) = lookupAssoc q' im := by
  induction im with
  | nil => rfl
  | cons hd tl ih =>
    obtain ⟨k, e⟩ := hd
    rw [updateInterfaceAttr_cons]
    by_cases hk : k = q
    · subst hk
      rw [if_pos rfl]
      simp only [lookupAssoc_cons, if_neg (fun he : k = q' => h he.symm)]
      exact ih
    · rw [if_neg hk]
      simp only [lookupAssoc_cons]
      by_cases hk2 : k = q'
      · simp [hk2]
      · simp only [if_neg hk2]
        exact ih

theorem updateInterfaceAttr_lookup_self (im : List (String × CsvRow))
    (q : String) (a v : String) :
    lookupAssoc q (updateInterfaceAttr im q a v)
      = (lookupAssoc q im).map (fun e => dictSet e a v) := by
  induction im with
  | nil => rfl
  | cons hd tl ih =>
    obtain ⟨k, e⟩ := hd
    rw [updateInterfaceAttr_cons]
    by_cases hk : k = q
    · subst hk
      simp [lookupAssoc_cons]
    · rw [if_neg hk]
      simp only [lookupAssoc_cons, if_neg hk]
      exact ih

/-- Invariant of the interface map built by `generate_import_dicts`:
every entry is a non-empty dict (it holds at least `name`), so the
truthiness seeding test coincides with key presence. -/
def nonempty_entries (im : List (String × CsvRow)) : Prop :=
  ∀ q e, lookupAssoc q im = some e → e ≠ []

theorem nonempty_entries_nil : nonempty_entries [] := by
  intro q e h
  cases h

theorem nonempty_entries_dictSet (im : List (String × CsvRow)) (k : String)
    (seed : CsvRow) (hseed : seed ≠ []) (h : nonempty_entries im) :
    nonempty_entries (dictSet im k seed) := by
  intro q e hq
  by_cases hk : q = k
  · subst hk
    rw [lookupAssoc_dictSet_self] at hq
    cases hq
    exact hseed
  · rw [lookupAssoc_dictSet_ne _ _ _ _ hk] at hq
    exact h q e hq

theorem nonempty_entries_updateInterfaceAttr (im : List (String × CsvRow))
    (k a v : String) (h : nonempty_entries im) :
    nonempty_entries (updateInterfaceAttr im k a v) := by
  intro q e hq
  by_cases hk : q = k
  · subst hk
    rw [updateInterfaceAttr_lookup_self] at hq
    cases he : lookupAssoc q im with
    | none => rw [he] at hq; cases hq
    | some e' =>
      rw [he] at hq
      simp only [Option.map_some'] at hq
      rw [← Option.some_inj.mp hq]
      exact dictSet_ne_nil e' a v
  · rw [updateInterfaceAttr_lookup_ne _ _ _ _ _ hk] at hq
    exact h q e hq

end NetboxCsvImport

namespace NetboxCsvImport

/-- Spec side of C4: the device mapping is the row minus every column the
pattern recognises (removed whether or not its value was empty). -/
def deviceMapSpec (matcher : String → Option (String × String))
    (row : CsvRow) : CsvRow :=
  row.filter (fun kv => (matcher kv.1).isNone)

/-- Spec side of C4: the attribute/value pairs a prefix gains — one per
matching column with a non-empty value, in row order. -/
def interfaceAttrsSpec (matcher : String → Option (String × String))
    (row : CsvRow) (p : String) : CsvRow :=
  row.filterMap (fun kv =>
    match matcher kv.1 with
    | some qa => if qa.1 = p ∧ kv.2 ≠ "" then some (qa.2, kv.2) else Option.none
    | Option.none => Option.none)

/-- Spec side of C4: the entry of a matched prefix — the `{name: prefix}`
seed updated with each gained attribute in order. -/
def interfaceEntrySpec (matcher : String → Option (String × String))
    (row : CsvRow) (p : String) : CsvRow :=
  (interfaceAttrsSpec matcher row p).foldl
    (fun e av => dictSet e av.1 av.2) [("name", p)]

/-- Whether some column of the row matches with the given prefix. -/
def matchedPrefix (matcher : String → Option (String × String))
    (row : CsvRow) (p : String) : Bool :=
  row.any (fun kv =>
    match matcher kv.1 with
    | some qa => qa.1 = p
    | Option.none => false)

/-- Whether the key of some matching column of `l` equals `k`. -/
def matchedKeyIn (matcher : String → Option (String × String))
    (l : CsvRow) (k : String) : Bool :=
  l.any (fun kv => kv.1 = k && (matcher kv.1).isSome)

theorem matchedKeyIn_cons (matcher : String → Option (String × String))
    (h v : String) (l : CsvRow) (k : String) :
    matchedKeyIn matcher ((h, v) :: l) k
      = ((decide (h = k) && (matcher h).isSome) || matchedKeyIn matcher l k) := by
  rfl

theorem gid_fold_fst (matcher : String → Option (String × String)) :
    ∀ (l : CsvRow) (d : CsvRow) (im : List (String × CsvRow)),
      (l.foldl (gid_step matcher) (d, im)).1
        = d.filter (fun kv => !(matchedKeyIn matcher l kv.1)) := by
  intro l
  induction l with
  | nil =>
    intro d im
    simp [matchedKeyIn]
  | cons hd tl ih =>
    intro d im
    obtain ⟨h, v⟩ := hd
    rw [List.foldl_cons]
    cases hm : matcher h with
    | none =>
      rw [show gid_step matcher (d, im) (h, v) = (d, im) by
        unfold gid_step; rw [hm]]
      rw [ih d im]
      apply List.filter_congr
      intro kv _
      rw [matchedKeyIn_cons]
      by_cases hk : h = kv.1
      · subst hk
        simp [hm]
      · simp [hk]
    | some qa =>
      rcases hgs : gid_step matcher (d, im) (h, v) with ⟨d2, im2⟩
      have hd2 : d2 = dictErase d h := by
        have : (gid_step matcher (d, im) (h, v)).1 = dictErase d h := by
          unfold gid_step
          rw [hm]
        rw [hgs] at this
        exact this
      rw [ih d2 im2, hd2]
      unfold dictErase
      rw [List.filter_filter]
      apply List.filter_congr
      intro kv _
      rw [matchedKeyIn_cons]
      by_cases hk : h = kv.1
      · subst hk
        simp [hm]
      · have hk2 : ¬ kv.1 = h := fun he => hk he.symm
        simp [hk, hk2]

theorem gid_fst_eq_deviceMapSpec (matcher : String → Option (String × String))
    (row : CsvRow) :
    (generate_import_dicts matcher row).1 = deviceMapSpec matcher row := by
  unfold generate_import_dicts deviceMapSpec
  rw [gid_fold_fst matcher row row []]
  apply List.filter_congr
  intro kv hkv
  cases hm : (matcher kv.1) with
  | none =>
    have hfalse : matchedKeyIn matcher row kv.1 = false := by
      unfold matchedKeyIn
      rw [List.any_eq_false]
      intro kv2 hkv2
      by_cases hk : kv2.1 = kv.1
      · simp [hk, hm]
      · simp [hk]
    rw [hfalse]
    rfl
  | some qa =>
    have htrue : matchedKeyIn matcher row kv.1 = true := by
      unfold matchedKeyIn
      rw [List.any_eq_true]
      exact ⟨kv, hkv, by simp [hm]⟩
    rw [htrue]
    rfl

end NetboxCsvImport

namespace NetboxCsvImport

theorem interfaceAttrsSpec_cons_none (matcher : String → Option (String × String))
    (h v : String) (tl : CsvRow) (p : String) (hm : matcher h = Option.none) :
    interfaceAttrsSpec matcher ((h, v) :: tl) p
      = interfaceAttrsSpec matcher tl p := by
  unfold interfaceAttrsSpec
  rw [List.filterMap_cons]
  simp [hm]

theorem matchedPrefix_cons_none (matcher : String → Option (String × String))
    (h v : String) (tl : CsvRow) (p : String) (hm : matcher h = Option.none) :
    matchedPrefix matcher ((h, v) :: tl) p = matchedPrefix matcher tl p := by
  unfold matchedPrefix
  rw [List.any_cons]
  simp [hm]

theorem interfaceAttrsSpec_cons_other (matcher : String → Option (String × String))
    (h v : String) (tl : CsvRow) (p q a : String)
    (hm : matcher h = some (q, a)) (hq : q ≠ p) :
    interfaceAttrsSpec matcher ((h, v) :: tl) p
      = interfaceAttrsSpec matcher tl p := by
  unfold interfaceAttrsSpec
  rw [List.filterMap_cons]
  simp [hm, hq]

theorem matchedPrefix_cons_other (matcher : String → Option (String × String))
    (h v : String) (tl : CsvRow) (p q a : String)
    (hm : matcher h = some (q, a)) (hq : q ≠ p) :
    matchedPrefix matcher ((h, v) :: tl) p = matchedPrefix matcher tl p := by
  unfold matchedPrefix
  rw [List.any_cons]
  simp [hm, hq]

theorem interfaceAttrsSpec_cons_self (matcher : String → Option (String × String))
    (h v : String) (tl : CsvRow) (q a : String) (hm : matcher h = some (q, a)) :
    interfaceAttrsSpec matcher ((h, v) :: tl) q
      = (if v ≠ "" then (a, v) :: interfaceAttrsSpec matcher tl q
         else interfaceAttrsSpec matcher tl q) := by
  unfold interfaceAttrsSpec
  rw [List.filterMap_cons]
  by_cases hv : v = ""
  · simp [hm, hv]
  · simp [hm, hv]

theorem matchedPrefix_cons_self (matcher : String → Option (String × String))
    (h v : String) (tl : CsvRow) (q a : String) (hm : matcher h = some (q, a)) :
    matchedPrefix matcher ((h, v) :: tl) q = true := by
  unfold matchedPrefix
  rw [List.any_cons]
  simp [hm]

/-- Fold characterization of the interface map: an entry present in the
accumulator gains the attributes of the remaining columns for its prefix;
an absent prefix appears iff some remaining column matches it, seeded
with `{name: prefix}` and updated with the gained attributes in order. -/
theorem gid_fold_snd (matcher : String → Option (String × String)) :
    ∀ (l : CsvRow) (d : CsvRow) (im : List (String × CsvRow)) (p : String),
      nonempty_entries im →
      lookupAssoc p (l.foldl (gid_step matcher) (d, im)).2
        = (match lookupAssoc p im with
           | some e => some ((interfaceAttrsSpec matcher l p).foldl
               (fun e2 av => dictSet e2 av.1 av.2) e)
           | Option.none =>
             if matchedPrefix matcher l p
             then some ((interfaceAttrsSpec matcher l p).foldl
                 (fun e2 av => dictSet e2 av.1 av.2) [("name", p)])
             else Option.none) := by
  intro l
  induction l with
  | nil =>
    intro d im p _
    cases hl : lookupAssoc p im <;>
      simp [interfaceAttrsSpec, matchedPrefix, hl]
  | cons hd tl ih =>
    intro d im p hinv
    obtain ⟨h, v⟩ := hd
    rw [List.foldl_cons]
    cases hm : matcher h with
    | none =>
      rw [show gid_step matcher (d, im) (h, v) = (d, im) by
        unfold gid_step; rw [hm]]
      rw [ih d im p hinv, interfaceAttrsSpec_cons_none matcher h v tl p hm,
        matchedPrefix_cons_none matcher h v tl p hm]
    | some qa =>
      obtain ⟨q, a⟩ := qa
      have hstep : gid_step matcher (d, im) (h, v) =
          (dictErase d h,
           if v ≠ "" then
             updateInterfaceAttr
               (if interfaceEntryTruthy (lookupAssoc q im) then im
                else dictSet im q [("name", q)]) q a v
           else
             (if interfaceEntryTruthy (lookupAssoc q im) then im
              else dictSet im q [("name", q)])) := by
        unfold gid_step
        rw [hm]
      rw [hstep]
      have hinv1 : nonempty_entries
          (if interfaceEntryTruthy (lookupAssoc q im) then im
           else dictSet im q [("name", q)]) := by
        split
        · exact hinv
        · exact nonempty_entries_dictSet im q [("name", q)] (by simp) hinv
      have hinv2 : nonempty_entries
          (if v ≠ "" then
             updateInterfaceAttr
               (if interfaceEntryTruthy (lookupAssoc q im) then im
                else dictSet im q [("name", q)]) q a v
           else
             (if interfaceEntryTruthy (lookupAssoc q im) then im
              else dictSet im q [("name", q)])) := by
        split
        · exact nonempty_entries_updateInterfaceAttr _ q a v hinv1
        · exact hinv1
      rw [ih _ _ p hinv2]
      by_cases hpq : q = p
      · subst hpq
        cases he : lookupAssoc q im with
        | some e =>
          have hne : e ≠ [] := hinv q e he
          have ht : interfaceEntryTruthy (some e) = true := by
            cases e with
            | nil => exact absurd rfl hne
            | cons x xs => rfl
          rw [interfaceAttrsSpec_cons_self matcher h v tl q a hm]
          by_cases hv : v = ""
          · subst hv
            have hvn : ¬ (("" : String) ≠ "") := fun hc => hc rfl
            rw [if_neg hvn, if_neg hvn, if_pos ht, he]
          · rw [if_pos hv, if_pos hv, if_pos ht,
              updateInterfaceAttr_lookup_self, he, Option.map_some']
            rfl
        | none =>
          have htn : ¬ interfaceEntryTruthy Option.none = true := by decide
          rw [interfaceAttrsSpec_cons_self matcher h v tl q a hm,
            matchedPrefix_cons_self matcher h v tl q a hm]
          by_cases hv : v = ""
          · subst hv
            have hvn : ¬ (("" : String) ≠ "") := fun hc => hc rfl
            rw [if_neg hvn, if_neg hvn, if_neg htn, lookupAssoc_dictSet_self,
              if_pos rfl]
          · rw [if_pos hv, if_pos hv, if_neg htn,
              updateInterfaceAttr_lookup_self, lookupAssoc_dictSet_self,
              Option.map_some', if_pos rfl]
            rfl
      · have hpq2 : p ≠ q := fun he => hpq he.symm
        have h1 : lookupAssoc p
            (if interfaceEntryTruthy (lookupAssoc q im) then im
             else dictSet im q [("name", q)]) = lookupAssoc p im := by
          split
          · rfl
          · exact lookupAssoc_dictSet_ne im q p [("name", q)] hpq2
        have hlook : lookupAssoc p
            (if v ≠ "" then
               updateInterfaceAttr
                 (if interfaceEntryTruthy (lookupAssoc q im) then im
                  else dictSet im q [("name", q)]) q a v
             else
               (if interfaceEntryTruthy (lookupAssoc q im) then im
                else dictSet im q [("name", q)])) = lookupAssoc p im := by
          split
          · rw [updateInterfaceAttr_lookup_ne _ q p a v hpq2, h1]
          · exact h1
        rw [hlook, interfaceAttrsSpec_cons_other matcher h v tl p q a hm hpq,
          matchedPrefix_cons_other matcher h v tl p q a hm hpq]

end NetboxCsvImport

namespace NetboxCsvImport

/-- C4: partition correctness.  For every flat CSV row: the device
mapping equals the row minus every column the interface pattern matches
(removed even when its value is empty); the interface mapping has an
entry exactly for each matched prefix, seeded with `{name: prefix}` and
updated with `attribute = value` for each matching column whose value is
non-empty, in row order; and an interface all of whose columns were empty
still appears with only its `name` key. -/
theorem c4_partition_correctness (row : CsvRow) (p : String) :
    (generate_import_dicts interface_regex_match row).1
        = deviceMapSpec interface_regex_match row ∧
      lookupAssoc p (generate_import_dicts interface_regex_match row).2
        = (if matchedPrefix interface_regex_match row p
           then some (interfaceEntrySpec interface_regex_match row p)
           else Option.none) ∧
      (matchedPrefix interface_regex_match row p = true →
        interfaceAttrsSpec interface_regex_match row p = [] →
        lookupAssoc p (generate_import_dicts interface_regex_match row).2
          = some [("name", p)]) := by
  have hsnd : lookupAssoc p (generate_import_dicts interface_regex_match row).2
      = (if matchedPrefix interface_regex_match row p
         then some (interfaceEntrySpec interface_regex_match row p)
         else Option.none) := by
    unfold generate_import_dicts
    rw [gid_fold_snd interface_regex_match row row [] p nonempty_entries_nil]
    rfl
  refine ⟨gid_fst_eq_deviceMapSpec interface_regex_match row, hsnd, ?_⟩
  intro hmatch hempty
  rw [hsnd, if_pos hmatch]
  unfold interfaceEntrySpec
  rw [hempty]
  rfl

/-- C4, witness: the spec's own example row
`{"wired_enabled": "true", "radio0_tx_power": "10", "name": "ap1"}`
partitions into device `{"name": "ap1"}` and interfaces
`{"wired": {name, enabled}, "radio0": {name, tx_power}}`; and a row whose
only `radio1` column is empty still yields the placeholder entry
`{"name": "radio1"}` while the column disappears from the device dict. -/
theorem c4_partition_correctness_witness :
    generate_import_dicts interface_regex_match
        [("wired_enabled", "true"), ("radio0_tx_power", "10"), ("name", "ap1")]
        = ([("name", "ap1")],
           [("wired", [("name", "wired"), ("enabled", "true")]),
            ("radio0", [("name", "radio0"), ("tx_power", "10")])]) ∧
      (generate_import_dicts interface_regex_match [("radio1_band", "")]).1
        = deviceMapSpec interface_regex_match [("radio1_band", "")] ∧
      deviceMapSpec interface_regex_match [("radio1_band", "")] = [] ∧
      lookupAssoc "radio1"
          (generate_import_dicts interface_regex_match [("radio1_band", "")]).2
        = some [("name", "radio1")] := by
  refine ⟨rfl, (c4_partition_correctness [("radio1_band", "")] "radio1").1,
    rfl, ?_⟩
  exact (c4_partition_correctness [("radio1_band", "")] "radio1").2.2 rfl rfl

end NetboxCsvImport
